import Mathlib

/-!
Verification of the `elza_bot` Telegram bot (Python sources under
`services/chat_service.py`, `storage.py`, `bot.py`) against its
natural-language specification, via a shallow embedding in Lean 4.

Conventions of the embedding:
- Python strings are Lean `String` at the API surface; character-level
  processing works on `List Char` (`String.toList`).
- `datetime.now()` is passed explicitly (`Env.now`); `datetime` values are
  the `DateTimeP` record (year/month/day/hour/minute/second).
- SQLite tables are Lean lists inside a `Db` record; each storage method of
  `storage.py` becomes a pure function on `Db`.
- Fallible adapters (OpenAI, YooKassa, Telegram) are oracles in `Env`:
  `ask_ai` already catches exceptions in the source and returns `None`, so
  its oracle returns `Option`; `TgService._post` swallows every exception
  (`tg_service.py`), so message delivery is a total operation whose
  success/failure is recorded by the `sendOk` oracle; YooKassa status
  lookup re-raises, so its oracle returns `Option` and the caller's
  `try/except` is modelled on `none`.
-/

namespace ElzaBot

/-! ## Character and string primitives (Python `str` semantics used by the code) -/

/-- Python `str.strip()` / `\s` whitespace, restricted to the ASCII
whitespace characters that can occur in Telegram message text. -/
def pyIsSpace (c : Char) : Bool :=
  c == ' ' || c == '\t' || c == '\n' || c == '\r' || c == '\x0b' || c == '\x0c'

/-- Python `str.lower()` on the alphabets the bot uses: ASCII letters and
the Russian Cyrillic block (`А`–`Я`, `Ё`). -/
def ruLowerChar (c : Char) : Char :=
  let v := c.toNat
  if 0x41 ≤ v ∧ v ≤ 0x5A then Char.ofNat (v + 0x20)
  else if 0x410 ≤ v ∧ v ≤ 0x42F then Char.ofNat (v + 0x20)
  else if v = 0x401 then Char.ofNat 0x451
  else c

def ruLowerL (s : List Char) : List Char := s.map ruLowerChar

/-- Python substring test `needle in hay`. -/
def isSubL (needle : List Char) : List Char → Bool
  | [] => needle.isEmpty
  | c :: rest => needle.isPrefixOf (c :: rest) || isSubL needle rest

/-- Drop leading Python whitespace. -/
def dropLeadWs (s : List Char) : List Char := s.dropWhile pyIsSpace

/-- Drop trailing Python whitespace. -/
def dropTrailWs (s : List Char) : List Char := (s.reverse.dropWhile pyIsSpace).reverse

/-- Python `str.strip()`. -/
def pyStripL (s : List Char) : List Char := dropTrailWs (dropLeadWs s)

/-- Python `str.strip()` on `String`. -/
def pyStrip (s : String) : String := (pyStripL s.toList).asString

/-! ## Dates and times -/

/-- A `datetime.datetime` value. -/
structure DateTimeP where
  year : Nat
  month : Nat
  day : Nat
  hour : Nat
  minute : Nat
  second : Nat
deriving DecidableEq, Repr

/-- Gregorian leap-year rule, as used by `calendar.monthrange`. -/
def isLeapYear (y : Nat) : Bool :=
  (y % 4 == 0 && y % 100 != 0) || y % 400 == 0

/-- Number of days of month `m` of year `y`: `calendar.monthrange(y, m)[1]`. -/
def monthrangeDays (y m : Nat) : Nat :=
  if m = 1 then 31
  else if m = 2 then (if isLeapYear y then 29 else 28)
  else if m = 3 then 31
  else if m = 4 then 30
  else if m = 5 then 31
  else if m = 6 then 30
  else if m = 7 then 31
  else if m = 8 then 31
  else if m = 9 then 30
  else if m = 10 then 31
  else if m = 11 then 30
  else 31

/-- A date is valid when the month is in `1..12` and the day fits the month. -/
def validDate (d : DateTimeP) : Prop :=
  1 ≤ d.month ∧ d.month ≤ 12 ∧ 1 ≤ d.day ∧ d.day ≤ monthrangeDays d.year d.month

instance (d : DateTimeP) : Decidable (validDate d) := by
  unfold validDate; infer_instance

/-- Embeds `ChatService._add_months` (`chat_service.py:1617-1623`).  The
call sites pass `months ∈ {1, 6, 12}`, so `months : Nat`; for non-negative
values Python floor division and `Nat` division agree. -/
def add_months (value : DateTimeP) (months : Nat) : DateTimeP :=
  let monthIndex := value.month - 1 + months
  let year := value.year + monthIndex / 12
  let month := monthIndex % 12 + 1
  let day := min value.day (monthrangeDays year month)
  { value with year := year, month := month, day := day }

/-- Zero-padded numeral of width ≥ 2 for `strftime`. -/
def pad2 (n : Nat) : String :=
  if n < 10 then "0" ++ Nat.repr n else Nat.repr n

/-- Zero-padded numeral of width ≥ 4 for `strftime` years. -/
def pad4 (n : Nat) : String :=
  if n < 10 then "000" ++ Nat.repr n
  else if n < 100 then "00" ++ Nat.repr n
  else if n < 1000 then "0" ++ Nat.repr n
  else Nat.repr n

/-- `strftime("%Y-%m-%d")`. -/
def fmtDate (d : DateTimeP) : String :=
  pad4 d.year ++ "-" ++ pad2 d.month ++ "-" ++ pad2 d.day

/-- `strftime("%Y-%m-%d %H:%M:%S")`, i.e. `ChatService._now_str`. -/
def fmtDateTime (d : DateTimeP) : String :=
  fmtDate d ++ " " ++ pad2 d.hour ++ ":" ++ pad2 d.minute ++ ":" ++ pad2 d.second

/-- Lexicographic order on `datetime` values, as compared by SQLite
`datetime(x) <= datetime(y)` on the `%Y-%m-%d %H:%M:%S` strings the code
stores. -/
def dtLe (a b : DateTimeP) : Bool :=
  if a.year ≠ b.year then a.year < b.year
  else if a.month ≠ b.month then a.month < b.month
  else if a.day ≠ b.day then a.day < b.day
  else if a.hour ≠ b.hour then a.hour < b.hour
  else if a.minute ≠ b.minute then a.minute < b.minute
  else a.second ≤ b.second

/-! ## Data model (`storage.py` dataclasses and tables) -/

/-- The `User` dataclass (`storage.py:11-21`). -/
structure User where
  chat_id : Int
  name : Option String := none
  surname : Option String := none
  birth_date : Option String := none
  birth_time : Option String := none
  subscription : Option String := none
  subscription_expires_at : Option String := none
  podruzhka_free_used_at : Option String := none
  retention_message_sent_at : Option String := none
deriving DecidableEq, Repr

/-- Python truthiness of an optional string field (`None` and `""` are falsy). -/
def optTruthy : Option String → Bool
  | none => false
  | some s => s ≠ ""

/-- The free-form `TgSession.data` dict, restricted to the keys the engine
actually reads and writes (`taro_type`, `tarot_mode_*`, `payment_*`).
A `none` field is an absent key. -/
structure SessionData where
  taro_type : Option String := none
  tarot_mode_topic : Option String := none
  tarot_mode_timeframe : Option String := none
  tarot_mode_spread_text : Option String := none
  tarot_mode_cards_required : Option Nat := none
  tarot_mode_question : Option String := none
  payment_id : Option String := none
  payment_months : Option Nat := none
deriving DecidableEq, Repr

/-- The `TgSession` dataclass (`storage.py:24-28`). -/
structure TgSession where
  chat_id : Int
  state : String
  data : SessionData
deriving DecidableEq, Repr

/-- A row of `taro_readings`; `created_date` is `date(created_at)`, the
only part of the timestamp the count queries inspect. -/
structure TaroReading where
  chat_id : Int
  user_name : Option String
  birth_date : Option String
  type_value : String
  question : String
  cards_count : Nat
  result : String
  created_date : String
deriving DecidableEq, Repr

/-- A row of `tarot_mode_logs`. -/
structure TarotModeLog where
  chat_id : Int
  topic : String
  timeframe : String
  spread : String
  cards : String
  created_date : String
deriving DecidableEq, Repr

/-- A row of `chat_messages`; of the JSON `meta` blob only the parts the
queries look at are kept (`"feature":"podruzhka"` and `"source"`). -/
structure ChatMsg where
  chat_id : Int
  role : String
  content : String
  feature : Option String
  source : Option String
  created_date : String
deriving DecidableEq, Repr

/-- A row of `reminders` (`storage.py:142-148`). -/
structure ReminderRow where
  id : Nat
  chat_id : Int
  message : String
  send_at : DateTimeP
  sent_at : Option String
deriving DecidableEq, Repr

/-- The `PaymentRecord` dataclass (`storage.py:39-49`). -/
structure PaymentRecord where
  id : Nat
  chat_id : Int
  yookassa_payment_id : String
  status : String
  amount_rub : Nat
  months : Nat
  confirmation_url : Option String
  created_at : String
  paid_at : Option String
deriving DecidableEq, Repr

/-- An outbound Telegram message recorded by `TgService.send_message`.
`delivered` is the outcome of the HTTP post; `TgService._post` catches
every exception (`tg_service.py:70-78`), so a failed delivery is recorded
here but never raises. -/
structure OutMsg where
  chat_id : Int
  text : String
  keyboard : List (List String)
  delivered : Bool
deriving DecidableEq, Repr

/-- The durable state: every SQLite table of `storage.py` that the claims
touch, plus the externally observable effect streams (`outbox` for
Telegram sends, `ai_calls` for completion-adapter invocations). -/
structure Db where
  users : List User := []
  sessions : List TgSession := []
  chat_messages : List ChatMsg := []
  taro_readings : List TaroReading := []
  tarot_mode_logs : List TarotModeLog := []
  reminders : List ReminderRow := []
  payments : List PaymentRecord := []
  outbox : List OutMsg := []
  ai_calls : List String := []
deriving DecidableEq, Repr

/-- The AI completion payload the engine consumes (`ai_service.AIResponse`,
with `usage`/`model` collapsed to what `_ai_meta` forwards). -/
structure AIResponse where
  content : String
  total_tokens : Option Nat := none
  model : Option String := none
deriving DecidableEq, Repr

/-- External world: the current wall-clock time and the three adapter
oracles.  `ai` is the outcome of `ChatService.ask_ai` (which catches
exceptions and returns `None`); `paymentStatus` is
`PaymentService.get_payment_status` (`none` = the call raised);
`sendOk` is whether the Telegram HTTP post succeeded (failures are
swallowed by `TgService._post`). -/
structure Env where
  now : DateTimeP
  ai : String → Option String → Option AIResponse
  paymentStatus : String → Option String
  sendOk : Int → String → Bool

/-! ## Storage operations (`storage.py`) -/

/-- `Storage.count_taro_readings` (`storage.py:459-464`). -/
def count_taro_readings (db : Db) (chat_id : Int) (cards_count : Nat) : Nat :=
  (db.taro_readings.filter
    (fun r => r.chat_id = chat_id ∧ r.cards_count = cards_count)).length

/-- `Storage.count_taro_readings_for_date` (`storage.py:466-475`). -/
def count_taro_readings_for_date (db : Db) (chat_id : Int) (cards_count : Nat)
    (date_value : String) : Nat :=
  (db.taro_readings.filter
    (fun r => r.chat_id = chat_id ∧ r.cards_count = cards_count ∧
      r.created_date = date_value)).length

/-- `Storage.count_tarot_mode_for_date` (`storage.py:477-486`). -/
def count_tarot_mode_for_date (db : Db) (chat_id : Int) (date_value : String) : Nat :=
  (db.tarot_mode_logs.filter
    (fun r => r.chat_id = chat_id ∧ r.created_date = date_value)).length

/-- `Storage.count_podruzhka_replies_for_date` (`storage.py:510-522`). -/
def count_podruzhka_replies_for_date (db : Db) (chat_id : Int) (date_value : String) : Nat :=
  (db.chat_messages.filter
    (fun m => m.chat_id = chat_id ∧ m.role = "assistant" ∧
      m.feature = some "podruzhka" ∧ m.created_date = date_value)).length

/-- `Storage.create_taro_reading` (`storage.py:538-567`). -/
def create_taro_reading (db : Db) (env : Env) (chat_id : Int)
    (user_name : Option String) (birth_date : Option String) (type_value : String)
    (question : String) (cards_count : Nat) (result : String) : Db :=
  { db with taro_readings := db.taro_readings ++
      [{ chat_id := chat_id, user_name := user_name, birth_date := birth_date,
         type_value := type_value, question := question, cards_count := cards_count,
         result := result, created_date := fmtDate env.now }] }

/-- `Storage.create_tarot_mode_log` (`storage.py:569-594`). -/
def create_tarot_mode_log (db : Db) (env : Env) (chat_id : Int)
    (topic timeframe spread cards : String) : Db :=
  { db with tarot_mode_logs := db.tarot_mode_logs ++
      [{ chat_id := chat_id, topic := topic, timeframe := timeframe,
         spread := spread, cards := cards, created_date := fmtDate env.now }] }

/-- `Storage.log_chat_message` (`storage.py:291-308`); the optional meta is
reduced to the `feature`/`source` tags the queries use. -/
def log_chat_message (db : Db) (env : Env) (chat_id : Int) (role content : String)
    (feature : Option String := none) (source : Option String := none) : Db :=
  { db with chat_messages := db.chat_messages ++
      [{ chat_id := chat_id, role := role, content := content,
         feature := feature, source := source, created_date := fmtDate env.now }] }

/-- `Storage.reminder_exists` (`storage.py:658-660`). -/
def reminder_exists (db : Db) (chat_id : Int) : Bool :=
  db.reminders.any (fun r => r.chat_id == chat_id)

/-- `Storage.create_reminder` (`storage.py:662-666`); row ids are assigned
by `AUTOINCREMENT`, modelled as the current list length. -/
def create_reminder (db : Db) (chat_id : Int) (message : String)
    (send_at : DateTimeP) : Db :=
  { db with reminders := db.reminders ++
      [{ id := db.reminders.length, chat_id := chat_id, message := message,
         send_at := send_at, sent_at := none }] }

/-- `Storage.get_due_reminders` (`storage.py:668-677`). -/
def get_due_reminders (db : Db) (now : DateTimeP) : List ReminderRow :=
  db.reminders.filter (fun r => r.sent_at = none ∧ dtLe r.send_at now)

/-- `Storage.mark_reminder_sent` (`storage.py:679-683`). -/
def mark_reminder_sent (db : Db) (env : Env) (reminder_id : Nat) : Db :=
  { db with reminders := (db.reminders.map
      (fun r => if r.id = reminder_id then
        { r with sent_at := some (fmtDateTime env.now) } else r)) }

/-- `Storage.get_payment_by_id` (`storage.py:749-756`). -/
def get_payment_by_id (db : Db) (yookassa_payment_id : String) : Option PaymentRecord :=
  db.payments.find? (fun p => p.yookassa_payment_id == yookassa_payment_id)

/-- `Storage.update_payment_status` (`storage.py:739-747`). -/
def update_payment_status (db : Db) (yookassa_payment_id : String) (status : String)
    (paid_at : Option String) : Db :=
  { db with payments := (db.payments.map
      (fun p => if p.yookassa_payment_id = yookassa_payment_id then
        { p with status := status, paid_at := paid_at } else p)) }

/-- `Storage.get_or_create_user` (`storage.py:214-220`). -/
def get_or_create_user (db : Db) (chat_id : Int) : User × Db :=
  match db.users.find? (fun u => u.chat_id == chat_id) with
  | some u => (u, db)
  | none =>
    let u : User := { chat_id := chat_id }
    (u, { db with users := db.users ++ [u] })

/-- `Storage.save_user` (`storage.py:252-272`). -/
def save_user (db : Db) (user : User) : Db :=
  { db with users := (db.users.map
      (fun u => if u.chat_id = user.chat_id then user else u)) }

/-- `Storage.get_or_create_session` (`storage.py:274-283`). -/
def get_or_create_session (db : Db) (chat_id : Int) : TgSession × Db :=
  match db.sessions.find? (fun s => s.chat_id == chat_id) with
  | some s => (s, db)
  | none =>
    let s : TgSession := { chat_id := chat_id, state := "start", data := {} }
    (s, { db with sessions := db.sessions ++ [s] })

/-- `Storage.save_session` (`storage.py:285-289`). -/
def save_session (db : Db) (session : TgSession) : Db :=
  { db with sessions := (db.sessions.map
      (fun s => if s.chat_id = session.chat_id then session else s)) }

/-! ## Time arithmetic for `timedelta` -/

/-- Step one calendar day forward. -/
def dtNextDay (d : DateTimeP) : DateTimeP :=
  if d.day < monthrangeDays d.year d.month then { d with day := d.day + 1 }
  else if d.month < 12 then { d with month := d.month + 1, day := 1 }
  else { d with year := d.year + 1, month := 1, day := 1 }

/-- Add `n` days. -/
def dtAddDays : DateTimeP → Nat → DateTimeP
  | d, 0 => d
  | d, n + 1 => dtAddDays (dtNextDay d) n

/-- `value + timedelta(hours=h)`. -/
def dtAddHours (d : DateTimeP) (h : Nat) : DateTimeP :=
  let total := d.hour + h
  dtAddDays { d with hour := total % 24 } (total / 24)

/-- `value + timedelta(minutes=m)`. -/
def dtAddMinutes (d : DateTimeP) (m : Nat) : DateTimeP :=
  let total := d.minute + m
  dtAddHours { d with minute := total % 60 } (total / 60)

/-! ## ChatService messaging primitives (`chat_service.py`) -/

/-- `TgService.send_message` (`tg_service.py:16-34`): performs the HTTP
post; `_post` swallows every exception, so the call is total and the
delivery outcome is only recorded. -/
def tg_send_message (env : Env) (db : Db) (chat_id : Int) (text : String)
    (keyboard : List (List String)) : Db :=
  { db with outbox := db.outbox ++
      [{ chat_id := chat_id, text := text, keyboard := keyboard,
         delivered := env.sendOk chat_id text }] }

/-- `ChatService.send_message` (`chat_service.py:59-71`): Telegram send
followed by an `assistant` chat-log row. -/
def send_message (env : Env) (db : Db) (chat_id : Int) (text : String)
    (keyboard : List (List String) := []) (feature : Option String := none) : Db :=
  let db := tg_send_message env db chat_id text keyboard
  log_chat_message db env chat_id "assistant" text feature none

/-- `ChatService.ask_ai` (`chat_service.py:1597-1602`): the completion call
with its catch-all; the invocation itself is recorded in `ai_calls`. -/
def ask_ai (env : Env) (db : Db) (prompt : String) (system : Option String := none) :
    Option AIResponse × Db :=
  (env.ai prompt system, { db with ai_calls := db.ai_calls ++ [prompt] })

/-- Keyboard of `ChatService.show_main_menu` (`chat_service.py:281-286`). -/
def main_menu_keyboard : List (List String) :=
  [["🃏 Расклад Таро", "🃏 Режим таролога"],
   ["🔢 Нумерология", "♒ Гороскоп"],
   ["💬 Подружка", "💎 Подписка"],
   ["ℹ️ Помощь"]]

/-- `ChatService.show_main_menu` (`chat_service.py:275-287`). -/
def show_main_menu (env : Env) (db : Db) (chat_id : Int) (user : User) : Db :=
  let name := if optTruthy user.name then user.name.getD "" else "Подруга"
  let text := name ++ ", теперь давай выберем, с чего начнём 💫\n" ++
    "Я рядом, чтобы помочь — просто выбери раздел, который тебе сейчас ближе."
  send_message env db chat_id text main_menu_keyboard

/-- `ChatService._subscription_benefits_text` (`chat_service.py:1377-1385`). -/
def subscription_benefits_text : String :=
  "Преимущества подписки:\n" ++
  "• Таро: 7 карт и до 10 раскладов в день\n" ++
  "• Нумерология: полный анализ и до 10 разборов в день\n" ++
  "• Гороскоп: полный прогноз и до 10 гороскопов в день\n" ++
  "• Подружка: расширенный диалог, до 30 сообщений в день"

/-- First retention nudge of `ChatService.RETENTION_MESSAGES`
(`chat_service.py:17-21`; the source literals are mojibake, reproduced
verbatim).  The tuple's first two entries are the same string. -/
def retentionMsgA : String :=
  "РЎРїР°СЃРёР±Рѕ, С‡С‚Рѕ РїСЂРѕРІРµР»Р° РґРµРЅСЊ СЃРѕ РјРЅРѕР№. Р•СЃР»Рё С‚С‹ С…РѕС‡РµС€СЊ, С‡С‚РѕР±С‹ СЏ Р±С‹Р»Р° СЂСЏРґРѕРј РІСЃРµРіРґР° вЂ” РїРѕРґРєР»СЋС‡Рё РїРѕРґРїРёСЃРєСѓ рџ’Њ"

/-- Third retention nudge of `ChatService.RETENTION_MESSAGES`. -/
def retentionMsgB : String :=
  "РЇ РІСЃС‘ РµС‰С‘ РїРѕРјРЅСЋ С‚РІРѕР№ РІРѕРїСЂРѕСЃвЂ¦ Р”Р°РІР°Р№ РїСЂРѕРґРѕР»Р¶РёРј? РџРѕРґРїРёСЃРєР° Р°РєС‚РёРІРёСЂСѓРµС‚ РІСЃРµ СЂР°Р·РґРµР»С‹."

/-- `ChatService.RETENTION_MESSAGES`. -/
def RETENTION_MESSAGES : List String := [retentionMsgA, retentionMsgA, retentionMsgB]

/-- `ChatService.PAYMENT_REMINDER_PREFIX` (`chat_service.py:16`); renamed
here because Lean identifiers in this development avoid that suffix. -/
def PAYMENT_REMINDER_TAG : String := "__PAYMENT_CHECK__"

/-- `ChatService.schedule_retention` (`chat_service.py:1586-1595`). -/
def schedule_retention (env : Env) (db : Db) (user : User) : Db :=
  if user.subscription = some "paid" then db
  else if optTruthy user.retention_message_sent_at then db
  else if reminder_exists db user.chat_id then db
  else create_reminder db user.chat_id (RETENTION_MESSAGES.headD "")
    (dtAddHours env.now 6)

/-! ## Subscription activation and payment reconciliation -/

/-- `ChatService._activate_subscription` (`chat_service.py:1522-1525`):
the expiry is always computed from `now`, never from the previous
`subscription_expires_at`. -/
def activate_subscription (now : DateTimeP) (user : User) (months : Nat) : User :=
  { user with subscription := some "paid",
              subscription_expires_at := some (fmtDateTime (add_months now months)) }

/-- `ChatService._schedule_payment_checks` (`chat_service.py:1527-1531`). -/
def schedule_payment_checks (env : Env) (db : Db) (chat_id : Int)
    (payment_id : String) : Db :=
  let payload5 := PAYMENT_REMINDER_TAG ++ "|" ++ payment_id ++ "|5"
  let payload10 := PAYMENT_REMINDER_TAG ++ "|" ++ payment_id ++ "|10"
  let db := create_reminder db chat_id payload5 (dtAddMinutes env.now 5)
  create_reminder db chat_id payload10 (dtAddMinutes env.now 10)

/-- Guard `payment and payment.status == "succeeded"`
(`chat_service.py:1544`). -/
def payment_succeeded_local : Option PaymentRecord → Bool
  | some p => p.status == "succeeded"
  | none => false

/-- `ChatService._process_payment_status` (`chat_service.py:1533-1580`). -/
def process_payment_status (env : Env) (session : TgSession) (user : User)
    (chat_id : Int) (payment_id : String) (notify_pending notify_errors : Bool)
    (db : Db) : TgSession × User × Db :=
  let payment := get_payment_by_id db payment_id
  if payment_succeeded_local payment then (session, user, db)
  else
    match env.paymentStatus payment_id with
    | none =>
      if notify_errors then
        (session, user,
          send_message env db chat_id
            "Не удалось проверить оплату. Попробуй ещё раз через минуту.")
      else (session, user, db)
    | some status =>
      if status = "succeeded" then
        let months := match payment with
          | some p => p.months
          | none => session.data.payment_months.getD 1
        let user := activate_subscription env.now user months
        let db := update_payment_status db payment_id status (some (fmtDateTime env.now))
        let db := send_message env db chat_id
          ("Оплата прошла! Подписка активирована на " ++ Nat.repr months ++ " мес. 💎")
        let db := show_main_menu env db chat_id user
        ({ session with state := "main_menu" }, user, db)
      else if status = "canceled" then
        let db := update_payment_status db payment_id status none
        let db := send_message env db chat_id
          "Платёж отменён. Если нужно, оформи подписку ещё раз."
          [["1 месяц", "6 месяцев (-10%)"], ["12 месяцев (-10%)", "Назад в меню"]]
        ({ session with state := "subscription_menu" }, user, db)
      else
        let db := update_payment_status db payment_id status none
        let db := if notify_pending then
            send_message env db chat_id
              "Платёж ещё не завершён. Попробуй проверить чуть позже."
              [["Проверить оплату"], ["Назад в меню"]]
          else db
        ({ session with state := "await_payment" }, user, db)

/-- `ChatService.handle_scheduled_payment_check` (`chat_service.py:1508-1520`). -/
def handle_scheduled_payment_check (env : Env) (db : Db) (chat_id : Int)
    (payment_id : String) : Db :=
  let sd := get_or_create_session db chat_id
  let ud := get_or_create_user sd.2 chat_id
  let r := process_payment_status env sd.1 ud.1 chat_id payment_id false false ud.2
  let db := save_user r.2.2 r.2.1
  save_session db r.1

/-! ## Simple tarot flow (`handle_taro_question`) -/

/-- Python `f"{x}"` on an optional string: `None` prints as `"None"`. -/
def pyStrOpt : Option String → String
  | none => "None"
  | some s => s

/-- `ChatService.build_taro_prompt` (`chat_service.py:1167-1175`). -/
def build_taro_prompt (name type_value question : String) (cards : Nat) : String :=
  "Ты — нежный и заботливый таролог, говоришь мягко и поддерживающе. Отвечай по-русски." ++
  "\n\n" ++
  "Для пользователя " ++ name ++ " сделай расклад \"" ++ type_value ++ "\" на " ++
  Nat.repr cards ++ " карт(ы). " ++
  "Дай название каждой карты (если возможно), краткую интерпретацию до 400 символов для каждой карты и общий вывод по раскладу (до 400 символов). " ++
  "Стиль: мягкий, поддерживающий, без категоричных предсказаний. В конце предложи 2-3 уточняющих вопроса, которые пользователь может задать для более точного ответа. " ++
  "Вопрос пользователя: «" ++ question ++ "»."

/-- Rejection message of the free-tier once-only check (`chat_service.py:408-412`). -/
def taroFreeUsedMsg : String :=
  "Бесплатный расклад уже был использован. 🌸\n\n" ++
  "Чтобы делать больше раскладов и получать рекомендации, подключи подписку."

/-- Rejection message of the paid daily-quota check (`chat_service.py:425-429`). -/
def taroPaidQuotaMsg : String :=
  "Ты использовала все 10 платных раскладов на сегодня 🌸\n\n" ++
  "Завтра сможешь продолжить или обратись к поддержке, если нужна расширенная сессия."

/-- Fallback reading text when the completion adapter fails (`chat_service.py:445`). -/
def taroAiFallback : String :=
  "К сожалению, сейчас я не могу подготовить расклад. Но не переживай — мы вернёмся к этому чуть позже."

/-- Python `result[:4000] + "..." if len(result) > 4000 else result`. -/
def truncate4000 (s : String) : String :=
  if 4000 < s.toList.length then (s.toList.take 4000).asString ++ "..." else s

/-- `ChatService.handle_taro_question` (`chat_service.py:393-483`). -/
def handle_taro_question (env : Env) (session : TgSession) (user : User)
    (chat_id : Int) (text : String) (db : Db) : TgSession × User × Db :=
  if text = "Назад в меню" then
    let db := show_main_menu env db chat_id user
    ({ session with state := "main_menu" }, user, db)
  else if text = "Задать вопрос" then
    let db := send_message env db chat_id
      "Пожалуйста, напиши свой вопрос одним сообщением." [["Назад в меню"]]
    ({ session with state := "taro_ask_question" }, user, db)
  else
    let cards : Nat := if user.subscription = some "paid" then 7 else 3
    if user.subscription ≠ some "paid" ∧
        1 ≤ count_taro_readings db user.chat_id 3 then
      let db := send_message env db chat_id taroFreeUsedMsg
        [["Получить доступ", "Назад в меню"]]
      ({ session with state := "main_menu" }, user, db)
    else if user.subscription = some "paid" ∧
        10 ≤ count_taro_readings_for_date db user.chat_id 3 (fmtDate env.now) then
      let db := send_message env db chat_id taroPaidQuotaMsg [["Назад в меню"]]
      ({ session with state := "main_menu" }, user, db)
    else
      let type_value := session.data.taro_type.getD "Расклад"
      let prompt := build_taro_prompt
        (if optTruthy user.name then user.name.getD "" else "Подруга")
        type_value text cards
      let db := send_message env db chat_id
        "Сейчас я посоветуюсь с картами и соберу расклад — это займёт пару секунд ✨"
      let ai_r := ask_ai env db prompt
      let db := ai_r.2
      let result := match ai_r.1 with
        | none => taroAiFallback
        | some r => r.content
      let result := truncate4000 result
      let final :=
        "Спасибо, " ++ pyStrOpt user.name ++ ", что поделилась своим вопросом 🌸\n\n" ++
        "<b>Вопрос:</b> " ++ text ++ "\n\n" ++
        "<b>Расклад (" ++ Nat.repr cards ++ " карты):</b>\n" ++ result ++ "\n\n" ++
        "Спасибо, что открываешься — если хочешь ещё углубиться, рассмотрим платную версию (7 карт и персональные рекомендации).\n\n" ++
        subscription_benefits_text
      let db := create_taro_reading db env user.chat_id user.name user.birth_date
        type_value text cards result
      if user.subscription = some "paid" then
        let db := send_message env db chat_id final
          [["Задать ещё вопрос", "Назад в меню"]]
        ({ session with state := "taro_menu" }, user, db)
      else
        let final := final ++
          "\n\nСпасибо, что доверилась. Если хочешь получать больше раскладов и персональные рекомендации — подключи подписку 💎"
        let db := send_message env db chat_id final
          [["Получить доступ", "Назад в меню"]]
        let db := schedule_retention env db user
        ({ session with state := "main_menu" }, user, db)

/-! ## Companion chat (`podruzhka`) -/

/-- `ChatService.PODRUZHKA_DAILY_LIMIT` (`chat_service.py:47`). -/
def PODRUZHKA_DAILY_LIMIT : Nat := 30

/-- `ChatService.PODRUZHKA_MAX_INPUT_CHARS` (`chat_service.py:48`). -/
def PODRUZHKA_MAX_INPUT_CHARS : Nat := 1000

/-- `ChatService.PODRUZHKA_MAX_REPLY_CHARS` (`chat_service.py:49`). -/
def PODRUZHKA_MAX_REPLY_CHARS : Nat := 1200

/-- `ChatService.build_podruzhka_system_prompt` (`chat_service.py:1085-1091`). -/
def build_podruzhka_system_prompt : String :=
  "Ты — добрая, понимающая, внимательная подруга. Твоя задача — поддерживать, выслушивать, " ++
  "помогать словами и мягко направлять, если нужно. Никакой оценки. Ты можешь говорить с юмором, " ++
  "тепло, но всегда с уважением. Избегай клише и сухих фраз. Отвечай коротко: 3-6 предложений, " ++
  "до 900 символов."

/-- `ChatService.is_distress_message` (`chat_service.py:1093-1098`). -/
def is_distress_message (text : String) : Bool :=
  let t := ruLowerL text.toList
  ["суиц", "самоуб", "убью", "смерть", "умереть"].any (fun w => isSubL w.toList t)

/-- The safety reply sent on a distress keyword (`chat_service.py:703-707`). -/
def distressSafetyMsg : String :=
  "Если тебе очень тяжело, пожалуйста, обратись к специалисту. Я рядом, но живой человек — лучшее решение в таких ситуациях."

/-- The farewell sent on «Закончить разговор» (`chat_service.py:694-697`). -/
def endTalkMsg : String :=
  "Спасибо, что доверилась мне. Помни: ты ценная и важная. Я всегда рядом, когда захочешь поговорить."

/-- Python `s[:n] + "..." if len(s) > n else s`. -/
def truncateDots (n : Nat) (s : String) : String :=
  if n < s.toList.length then (s.toList.take n).asString ++ "..." else s

/-- `ChatService.handle_podruzhka_free` (`chat_service.py:692-741`). -/
def handle_podruzhka_free (env : Env) (session : TgSession) (user : User)
    (chat_id : Int) (text : String) (db : Db) : TgSession × User × Db :=
  if text = "Закончить разговор" then
    let db := send_message env db chat_id endTalkMsg
    let db := show_main_menu env db chat_id user
    ({ session with state := "main_menu" }, user, db)
  else if is_distress_message text then
    let db := send_message env db chat_id distressSafetyMsg [["Закончить разговор"]]
    (session, user, db)
  else
    let safe_text := (text.toList.take PODRUZHKA_MAX_INPUT_CHARS).asString
    let ai_r := ask_ai env db safe_text (some build_podruzhka_system_prompt)
    let db := ai_r.2
    match ai_r.1 with
    | none =>
      let db := send_message env db chat_id
        "Сейчас не получается ответить. Попробуй ещё раз чуть позже." [["Назад в меню"]]
      ({ session with state := "main_menu" }, user, db)
    | some resp =>
      let reply := truncateDots 300 resp.content
      let final := reply ++
        "\n\nСпасибо, что написала. Я рядом, даже когда трудно. 💗\n" ++
        "Если хочешь продолжать беседу без ограничений и получать упражнения и поддержку в любой момент — подключи подписку.\n\n" ++
        subscription_benefits_text
      let db := send_message env db chat_id final
        [["Получить доступ", "Назад в меню"]] (some "podruzhka")
      let user := { user with podruzhka_free_used_at := some (fmtDateTime env.now) }
      let db := schedule_retention env db user
      ({ session with state := "main_menu" }, user, db)

/-- `ChatService.handle_podruzhka_chat` (`chat_service.py:743-798`). -/
def handle_podruzhka_chat (env : Env) (session : TgSession) (user : User)
    (chat_id : Int) (text : String) (db : Db) : TgSession × User × Db :=
  if text = "Закончить разговор" then
    let db := send_message env db chat_id endTalkMsg
    let db := show_main_menu env db chat_id user
    ({ session with state := "main_menu" }, user, db)
  else if is_distress_message text then
    let db := send_message env db chat_id distressSafetyMsg [["Закончить разговор"]]
    (session, user, db)
  else if PODRUZHKA_DAILY_LIMIT ≤
      count_podruzhka_replies_for_date db user.chat_id (fmtDate env.now) then
    let db := send_message env db chat_id
      "На сегодня лимит сообщений в Подружке исчерпан. Давай продолжим завтра."
      [["Назад в меню"]]
    let db := show_main_menu env db chat_id user
    ({ session with state := "main_menu" }, user, db)
  else
    let safe_text := (text.toList.take PODRUZHKA_MAX_INPUT_CHARS).asString
    let ai_r := ask_ai env db safe_text (some build_podruzhka_system_prompt)
    let db := ai_r.2
    match ai_r.1 with
    | none =>
      let db := send_message env db chat_id
        "Сейчас не получается ответить. Давай попробуем позже." [["Закончить разговор"]]
      ({ session with state := "podruzhka_chat" }, user, db)
    | some resp =>
      let reply := truncateDots PODRUZHKA_MAX_REPLY_CHARS resp.content
      let db := send_message env db chat_id reply
        [["Закончить разговор"]] (some "podruzhka")
      ({ session with state := "podruzhka_chat" }, user, db)

/-! ## Update dispatcher (`handle_update`) -/

/-- An inbound Telegram message, with the fields `handle_update` reads. -/
structure TgMessageU where
  chat_id : Int
  text : Option String := none
  caption : Option String := none
  message_id : Option Nat := none
  date : Option Nat := none
deriving DecidableEq, Repr

/-- An inbound Telegram update; `message = none` models an update dict
with no `message` entry. -/
structure TgUpdate where
  update_id : Option Nat := none
  message : Option TgMessageU := none
deriving DecidableEq, Repr

/-- The per-state dispatch: the body of `match session.state`
(`chat_service.py:97-260`).  The state handlers embedded in this file
(`handle_taro_question`, `handle_podruzhka_free`, …) are its branches;
theorems about the guard of `handle_update` quantify over every dispatch. -/
def DispatchFn : Type :=
  Env → TgSession → User → Int → String → Db → TgSession × User × Db

/-- `ChatService.handle_update` (`chat_service.py:73-263`): the
missing-message guard, inbound logging, session/user resolution, one
dispatch on the current state, and the final write-back. -/
def handle_update (dispatch : DispatchFn) (env : Env) (upd : TgUpdate) (db : Db) : Db :=
  match upd.message with
  | none => db
  | some m =>
    let raw_text := match m.text with
      | some t => t
      | none => m.caption.getD ""
    let text := pyStrip raw_text
    let db := log_chat_message db env m.chat_id "user" text
    let sd := get_or_create_session db m.chat_id
    let ud := get_or_create_user sd.2 m.chat_id
    let r := dispatch env sd.1 ud.1 m.chat_id text ud.2
    let db := save_user r.2.2 r.2.1
    save_session db r.1

/-! ## Reminder scheduler (`bot.py`) -/

/-- `reminder.message.startswith(PAYMENT_REMINDER_PREFIX)` (`bot.py:34`). -/
def startsWithPaymentTag (msg : String) : Bool :=
  PAYMENT_REMINDER_TAG.toList.isPrefixOf msg.toList

/-- `parts = reminder.message.split("|", 2)`; returns `parts[1]` when it
exists and is truthy (`bot.py:35-38`).  With at least two parts,
`split("|", 2)` and an unbounded split agree on `parts[1]`. -/
def sched_payment_id (msg : String) : Option String :=
  match msg.splitOn "|" with
  | _ :: p :: _ => if p ≠ "" then some p else none
  | _ => none

/-- Delivery path of `_send_due_reminders` (`bot.py:49-60`): send, log,
stamp the retention marker when the message is a retention nudge, mark
sent. -/
def sched_deliver (env : Env) (db : Db) (r : ReminderRow) : Db :=
  let db := tg_send_message env db r.chat_id r.message []
  let db := log_chat_message db env r.chat_id "assistant" r.message none (some "reminder")
  let db :=
    if RETENTION_MESSAGES.contains r.message then
      let ud := get_or_create_user db r.chat_id
      save_user ud.2
        { ud.1 with retention_message_sent_at := some (fmtDateTime env.now) }
    else db
  mark_reminder_sent db env r.id

/-- One iteration of the loop body of `_send_due_reminders` (`bot.py:33-60`).
The resolved user pair `get_or_create_user db r.chat_id` is written out
twice below; `get_or_create_user` is pure, so this equals the source's
single `user = storage.get_or_create_user(...)` binding. -/
def sched_step (env : Env) (db : Db) (r : ReminderRow) : Db :=
  if startsWithPaymentTag r.message then
    mark_reminder_sent
      (match sched_payment_id r.message with
        | some pid => handle_scheduled_payment_check env db r.chat_id pid
        | none => db)
      env r.id
  else if RETENTION_MESSAGES.contains r.message then
    if (get_or_create_user db r.chat_id).1.subscription = some "paid" ∨
        optTruthy (get_or_create_user db r.chat_id).1.retention_message_sent_at then
      mark_reminder_sent (get_or_create_user db r.chat_id).2 env r.id
    else sched_deliver env (get_or_create_user db r.chat_id).2 r
  else sched_deliver env db r

/-- `_send_due_reminders` (`bot.py:31-60`): the due list is computed once,
then each due reminder is processed in order.  Delivery failures cannot
abort the loop because `TgService._post` swallows every exception. -/
def send_due_reminders (env : Env) (db : Db) : Db :=
  (get_due_reminders db env.now).foldl (sched_step env) db

/-- A reminder id is fully marked sent in a database. -/
def markedSent (db : Db) (i : Nat) : Prop :=
  ∀ row ∈ db.reminders, row.id = i → row.sent_at.isSome

instance (db : Db) (i : Nat) : Decidable (markedSent db i) := by
  unfold markedSent; infer_instance

/-! ## Spread card-count extraction -/

/-- Python `int()` of a nonempty ASCII digit run. -/
def natOfDigits (ds : List Char) : Nat :=
  ds.foldl (fun acc c => acc * 10 + (c.toNat - 48)) 0

/-- Attempt of the pattern `(\d+)\s*карт` directly after an opening
parenthesis: a nonempty digit run, optional whitespace, then the
case-insensitive literal `карт`. -/
def cardCountHere (rest : List Char) : Option Nat :=
  let ds := rest.takeWhile Char.isDigit
  if ds.isEmpty then none
  else
    let r2 := (rest.dropWhile Char.isDigit).dropWhile pyIsSpace
    if ruLowerL (r2.take 4) = "карт".toList then some (natOfDigits ds) else none

/-- `re.search(r"\((\d+)\s*карт", spread_text, re.IGNORECASE)`: the
leftmost position where the pattern matches.  The digit run is greedy and
cannot backtrack into a successful alternative, so the scan is exact. -/
def findCardCount : List Char → Option Nat
  | [] => none
  | c :: rest =>
    if c = '(' then
      match cardCountHere rest with
      | some n => some n
      | none => findCardCount rest
    else findCardCount rest

/-- `ChatService._extract_tarot_spread_cards_count`
(`chat_service.py:1248-1257`).  The `int()` of a `\d+` group cannot raise,
so the `except ValueError` branch is dead code. -/
def extract_tarot_spread_cards_count (spread_text : String) : Nat :=
  match findCardCount spread_text.toList with
  | none => 5
  | some value => if 3 ≤ value ∧ value ≤ 7 then value else 5

/-! ## Card-list parsing (`_parse_tarot_cards`) -/

/-- `text.splitlines()`.  Splitting at every `'\n'`/`'\r'` differs from
Python only in producing an extra empty line for `"\r\n"`, which the
strip-and-filter step of `_parse_tarot_cards` discards either way. -/
def splitOnNL : List Char → List (List Char)
  | [] => [[]]
  | c :: rest =>
    if c = '\n' ∨ c = '\r' then [] :: splitOnNL rest
    else match splitOnNL rest with
      | [] => [[c]]
      | l :: ls => (c :: l) :: ls

/-- Accumulator pass of Python `str.split()` (split on whitespace runs). -/
def wordsAux : List Char → List Char → List (List Char)
  | [], cur => if cur.isEmpty then [] else [cur.reverse]
  | c :: rest, cur =>
    if pyIsSpace c then
      if cur.isEmpty then wordsAux rest [] else cur.reverse :: wordsAux rest []
    else wordsAux rest (c :: cur)

/-- Python `str.split()` with no argument. -/
def wordsL (s : List Char) : List (List Char) := wordsAux s []

/-- Join word lists with single spaces (`" ".join(...)`). -/
def joinW : List (List Char) → List Char
  | [] => []
  | [w] => w
  | w :: ws => w ++ ' ' :: joinW ws

/-- `" ".join(line.split())` (`chat_service.py:1288`). -/
def collapseWsL (s : List Char) : List Char := joinW (wordsL s)

/-- `re.sub(r"^\d+[\).\-\s]*", "", cleaned)` (`chat_service.py:1289`):
strip a leading enumeration like `1) `. -/
def stripLeadingEnumL (s : List Char) : List Char :=
  match s with
  | [] => []
  | c :: _ =>
    if c.isDigit then
      (s.dropWhile Char.isDigit).dropWhile
        (fun c => c == ')' || c == '.' || c == '-' || pyIsSpace c)
    else s

/-- The placeholder line set (`chat_service.py:1266-1275`). -/
def placeholdersL : List (List Char) :=
  ["пустая".toList, "пусто".toList, "пустая карта".toList, "пропуск".toList,
   "пропуск карты".toList, "нет карты".toList, "нет".toList, "-".toList]

/-- Scan for the split the regex `^(.+?)\s*\(([^)]+)\)\s*$` selects on a
line whose last non-space character is `)`: the first `(` at index ≥ 1
followed by a nonempty run without `)` reaching the final `)`.  `acc`
holds the reversed prefix before the cursor. -/
def parenSplitAux : List Char → List Char → Option (List Char × List Char)
  | _, [] => none
  | acc, c :: rest =>
    if c == '(' && !acc.isEmpty && !rest.isEmpty && !rest.contains ')' then
      some (acc.reverse, rest)
    else parenSplitAux (c :: acc) rest

/-- `pattern_paren = ^(.+?)\s*\(([^)]+)\)\s*$` (`chat_service.py:1276`),
with the Python-side `.strip()` of both groups applied. -/
def patternParenL (s : List Char) : Option (List Char × List Char) :=
  let t := dropTrailWs s
  if t.getLast? = some ')' then
    match parenSplitAux [] t.dropLast with
    | some (pre, content) => some (pyStripL pre, pyStripL content)
    | none => none
  else none

/-- Scan for the split of `^(.+?)\s*[-–—]\s*(.+)$`: the first dash at
index ≥ 1 with a nonempty remainder. -/
def dashSplitAux : List Char → List Char → Option (List Char × List Char)
  | _, [] => none
  | acc, c :: rest =>
    if (c == '-' || c == '–' || c == '—') && !acc.isEmpty && !rest.isEmpty then
      some (acc.reverse, rest)
    else dashSplitAux (c :: acc) rest

/-- `pattern_dash = ^(.+?)\s*[-–—]\s*(.+)$` (`chat_service.py:1277`), with
the Python-side `.strip()` of both groups applied. -/
def patternDashL (s : List Char) : Option (List Char × List Char) :=
  match dashSplitAux [] s with
  | some (pre, rest) => some (pyStripL pre, pyStripL rest)
  | none => none

/-- `\w` with `re.UNICODE` over the alphabets in play: ASCII alphanumerics,
underscore and the Russian Cyrillic block. -/
def wordChar (c : Char) : Bool :=
  c.isAlphanum || c == '_' || (0x410 ≤ c.toNat && c.toNat ≤ 0x44F) ||
    c.toNat == 0x401 || c.toNat == 0x451

/-- The orientation keyword stems of
`orientation_re = \b(прям\w*|перев\w*|обрат\w*|revers\w*)\b`
(`chat_service.py:1278-1283`), in alternation order. -/
def orientStems : List (List Char) :=
  ["прям".toList, "перев".toList, "обрат".toList, "revers".toList]

/-- `orientation_re.search(cleaned)`: leftmost position with a word
boundary before it where some stem matches case-insensitively; the match
extends over the following `\w*` run.  Returns
`(prefix, matched group, suffix)`. -/
def orientSearchAux : List Char → List Char → Option (List Char × List Char × List Char)
  | _, [] => none
  | acc, c :: rest =>
    let s := c :: rest
    if (match acc with | [] => true | a :: _ => !wordChar a) then
      match orientStems.find? (fun st => ruLowerL (s.take st.length) == st) with
      | some st =>
        let n := st.length + ((s.drop st.length).takeWhile wordChar).length
        some (acc.reverse, s.take n, s.drop n)
      | none => orientSearchAux (c :: acc) rest
    else orientSearchAux (c :: acc) rest

def orientSearch (s : List Char) : Option (List Char × List Char × List Char) :=
  orientSearchAux [] s

/-- Python `.strip(" -")`. -/
def stripSpaceDashL (s : List Char) : List Char :=
  ((s.dropWhile (fun c => c == ' ' || c == '-')).reverse.dropWhile
    (fun c => c == ' ' || c == '-')).reverse

/-- One parsed card (`{"name": ..., "orientation": ...}`). -/
structure TarotCard where
  name : String
  orientation : String
deriving DecidableEq, Repr

/-- Outcome of one iteration of the line loop of `_parse_tarot_cards`:
`skip` is `continue`, `fail` is `return None`. -/
inductive LineStep where
  | skip : LineStep
  | card : TarotCard → LineStep
  | fail : LineStep
deriving DecidableEq, Repr

/-- The three-pattern name/orientation extraction for one cleaned line
(`chat_service.py:1296-1312`). -/
def lineNameOrient (cleaned : List Char) : Option (List Char × List Char) :=
  match patternParenL cleaned with
  | some p => some p
  | none =>
    match patternDashL cleaned with
    | some p => some p
    | none =>
      match orientSearch cleaned with
      | some (pre, m, post) => some (stripSpaceDashL (pre ++ post), pyStripL m)
      | none => none

/-- The body of the line loop of `_parse_tarot_cards`
(`chat_service.py:1285-1330`). -/
def processCardLine (line : List Char) : LineStep :=
  if line = "...".toList ∨ line = "…".toList then .skip
  else
    let cleaned0 := pyStripL (collapseWsL line)
    let cleaned := pyStripL (stripLeadingEnumL cleaned0)
    if cleaned = [] then .skip
    else if placeholdersL.contains (ruLowerL cleaned) then
      .card { name := "пустая карта", orientation := "прямая" }
    else
      match lineNameOrient cleaned with
      | none => .fail
      | some (name, oraw) =>
        if name = [] ∨ oraw = [] then .fail
        else if placeholdersL.contains (ruLowerL name) then .skip
        else
          let ol := ruLowerL oraw
          if isSubL "прям".toList ol then
            .card { name := name.asString, orientation := "прямая" }
          else if isSubL "перев".toList ol || isSubL "обрат".toList ol ||
              isSubL "revers".toList ol then
            .card { name := name.asString, orientation := "перевёрнутая" }
          else .fail

/-- The loop over lines, propagating `return None`. -/
def parseCardsGo : List (List Char) → Option (List TarotCard)
  | [] => some []
  | l :: ls =>
    match processCardLine l with
    | .fail => none
    | .skip => parseCardsGo ls
    | .card c => (parseCardsGo ls).map (c :: ·)

/-- `ChatService._parse_tarot_cards` (`chat_service.py:1259-1332`),
including the final `return cards or None`. -/
def parse_tarot_cards (text : String) : Option (List TarotCard) :=
  let lines := ((splitOnNL text.toList).map pyStripL).filter (fun l => !l.isEmpty)
  if lines.isEmpty then none
  else
    match parseCardsGo lines with
    | none => none
    | some cs => if cs.isEmpty then none else some cs

/-! ### Well-formed card lines

A well-formed card line of the shape `name (orientation)` is described by
its name and orientation given as nonempty lists of nonempty words whose
characters are plain (no whitespace, no parentheses), the name not
starting with a digit (a leading digit is an enumeration marker the
source strips) and not being a placeholder word. -/

/-- A plain in-word character: not whitespace and not a parenthesis. -/
def goodWordChar (c : Char) : Bool := !pyIsSpace c && c ≠ '(' && c ≠ ')'

/-- A nonempty word of plain characters. -/
def goodWord (w : List Char) : Bool := !w.isEmpty && w.all goodWordChar

/-- A nonempty list of good words. -/
def wfWords (ws : List (List Char)) : Bool := !ws.isEmpty && ws.all goodWord

/-- First character of the first word. -/
def headCh (ws : List (List Char)) : Char := (ws.headD []).headD ' '

/-- Well-formed card name, given as its words. -/
def wellFormedName (nws : List (List Char)) : Bool :=
  wfWords nws && !(headCh nws).isDigit &&
    !placeholdersL.contains (ruLowerL (joinW nws))

/-- Well-formed orientation text, given as its words. -/
def wellFormedOrient (ows : List (List Char)) : Bool := wfWords ows

/-- The orientation text carries an "upright" stem. -/
def recognizedUp (o : List Char) : Bool := isSubL "прям".toList (ruLowerL o)

/-- The orientation text carries a "reversed" stem. -/
def recognizedRev (o : List Char) : Bool :=
  isSubL "перев".toList (ruLowerL o) || isSubL "обрат".toList (ruLowerL o) ||
    isSubL "revers".toList (ruLowerL o)

/-- The orientation keyword is recognized at all. -/
def recognizedOrient (o : List Char) : Bool := recognizedUp o || recognizedRev o

/-- The canonical orientation the parser stores for a recognized text. -/
def orientResult (o : List Char) : String :=
  if recognizedUp o then "прямая" else "перевёрнутая"

/-- The literal line `name (orientation)`. -/
def cardLineOf (nws ows : List (List Char)) : List Char :=
  joinW nws ++ [' ', '('] ++ joinW ows ++ [')']

/-- Join lines with newlines (how a user message is composed). -/
def joinLines : List (List Char) → List Char
  | [] => []
  | [l] => l
  | l :: ls => l ++ '\n' :: joinLines ls

/-- One entry: name words and orientation words. -/
def CardEntry : Type := List (List Char) × List (List Char)

instance : DecidableEq CardEntry :=
  inferInstanceAs (DecidableEq (List (List Char) × List (List Char)))

/-- The full user message for a list of entries. -/
def textOfEntries (entries : List CardEntry) : String :=
  (joinLines (entries.map (fun e => cardLineOf e.1 e.2))).asString

/-- The card the parser is expected to produce for an entry. -/
def cardOfEntry (e : CardEntry) : TarotCard :=
  { name := (joinW e.1).asString, orientation := orientResult (joinW e.2) }

/-- A well-formed entry: its name and orientation word lists are both
well formed. -/
def wfEntry (e : CardEntry) : Bool :=
  wellFormedName e.1 && wellFormedOrient e.2

/-- The orientation words with the surrounding parentheses attached to the
first and last word, as `str.split()` sees them inside a card line. -/
def addRparen : List (List Char) → List (List Char)
  | [] => []
  | [w] => [w ++ [')']]
  | w :: ws => w :: addRparen ws

/-- Attach `(` to the first orientation word and `)` to the last. -/
def addParens : List (List Char) → List (List Char)
  | [] => [['(', ')']]
  | [w] => [('(' :: w) ++ [')']]
  | w :: ws => ('(' :: w) :: addRparen ws

/-! ## Tarologist-mode card step (`handle_tarot_mode_cards`) -/

/-- `ChatService.TAROT_MODE_FREE_DAILY_LIMIT` (`chat_service.py:50`). -/
def TAROT_MODE_FREE_DAILY_LIMIT : Nat := 1

/-- `ChatService.TAROT_MODE_PAID_DAILY_LIMIT` (`chat_service.py:51`). -/
def TAROT_MODE_PAID_DAILY_LIMIT : Nat := 5

/-- `ChatService._reset_tarot_mode_session` (`chat_service.py:1351-1356`):
drop every `tarot_mode_*` key from the session data. -/
def reset_tarot_mode (s : TgSession) : TgSession :=
  { s with data := { s.data with
      tarot_mode_topic := none,
      tarot_mode_timeframe := none,
      tarot_mode_spread_text := none,
      tarot_mode_cards_required := none,
      tarot_mode_question := none } }

/-- `ChatService._check_tarot_mode_limit` (`chat_service.py:1334-1349`):
`(passed, session, db)`. -/
def check_tarot_mode_limit (env : Env) (s : TgSession) (u : User) (chat_id : Int)
    (db : Db) : Bool × TgSession × Db :=
  let limit := if u.subscription = some "paid" then TAROT_MODE_PAID_DAILY_LIMIT
    else TAROT_MODE_FREE_DAILY_LIMIT
  if count_tarot_mode_for_date db u.chat_id (fmtDate env.now) < limit then
    (true, s, db)
  else
    let msg := if u.subscription = some "paid" then
        "На сегодня лимит режима таролога — 5 раскладов. Попробуй завтра."
      else "На сегодня лимит режима таролога — 1 расклад. Попробуй завтра."
    let db := send_message env db chat_id msg [["В меню"]]
    (false, { (reset_tarot_mode s) with state := "main_menu" }, db)

/-- `ChatService.build_tarot_mode_interpret_prompt` (`chat_service.py:1222-1246`). -/
def build_tarot_mode_interpret_prompt (topic timeframe question spread_text
    cards_text : String) : String :=
  let question_value := if question ≠ "" then question else "не задан"
  "Контекст расклада:\n" ++
  "Сфера: " ++ topic ++ "\n" ++
  "Срок: " ++ timeframe ++ "\n" ++
  "Вопрос пользователя: " ++ question_value ++ "\n\n" ++
  "Расклад/позиции:\n" ++ spread_text ++ "\n\n" ++
  "Выпавшие карты:\n" ++ cards_text ++ "\n\n" ++
  "Ответ дай структурой:\n" ++
  "а) краткий вывод (2–4 предложения),\n" ++
  "б) трактовка по позициям,\n" ++
  "в) совет/рекомендации,\n" ++
  "г) предупреждение: «это не замена психологу/врачу» (коротко, без морали)."

/-- `"\n".join(f"{idx}) {card['name']} ({card['orientation']})" ...)`
(`chat_service.py:603-605`). -/
def cardsTextOf (cards : List TarotCard) : String :=
  String.intercalate "\n"
    (cards.enum.map (fun ic =>
      Nat.repr (ic.1 + 1) ++ ") " ++ ic.2.name ++ " (" ++ ic.2.orientation ++ ")"))

/-- Re-prompt on an unparsable card list (`chat_service.py:567-573`). -/
def tarotFormatRepromptMsg : String :=
  "Не вижу список карт в нужном формате. Повтори, пожалуйста, по примеру:\n" ++
  "1) 3 жезлов (прямая)\n" ++
  "2) Король мечей (перевёрнутая)\n" ++
  "..."

/-- Re-prompt on a count mismatch (`chat_service.py:581-583`). -/
def tarotCountMismatchMsg (n : Nat) : String :=
  "В раскладе " ++ Nat.repr n ++ " карт. Пришли, пожалуйста, ровно " ++
  Nat.repr n ++ " карт по примеру."

/-- Tail of `handle_tarot_mode_cards` after the parse and count gates
(`chat_service.py:595-645`): limit check, interpretation call, log row,
reply.  Split out of the handler for proof convenience; the composition
equals the source function. -/
def tarot_mode_cards_proceed (env : Env) (s : TgSession) (u : User) (chat_id : Int)
    (db : Db) (cards : List TarotCard) : TgSession × User × Db :=
  let lim := check_tarot_mode_limit env s u chat_id db
  if lim.1 = false then (lim.2.1, u, lim.2.2)
  else
    let db := lim.2.2
    let topic := s.data.tarot_mode_topic.getD ""
    let timeframe := s.data.tarot_mode_timeframe.getD ""
    let spread_text := s.data.tarot_mode_spread_text.getD ""
    let question := s.data.tarot_mode_question.getD ""
    let cards_text := cardsTextOf cards
    let prompt := build_tarot_mode_interpret_prompt topic timeframe question
      spread_text cards_text
    let db := send_message env db chat_id "Готовлю расшифровку, минутку."
    let ai_r := ask_ai env db prompt
      (some "Ты опытный таролог. Интерпретируй карты бережно и практично.")
    let db := ai_r.2
    match ai_r.1 with
    | none =>
      let db := send_message env db chat_id
        "Сейчас не могу расшифровать расклад. Попробуй чуть позже."
      let s2 := reset_tarot_mode s
      let db := show_main_menu env db chat_id u
      ({ s2 with state := "main_menu" }, u, db)
    | some resp =>
      let db := create_tarot_mode_log db env u.chat_id topic timeframe
        spread_text cards_text
      let db := send_message env db chat_id (pyStrip resp.content)
        [["Сделать ещё расклад", "В меню"]]
      let s2 := reset_tarot_mode s
      ({ s2 with state := "tarot_mode_done" }, u, db)

/-- `ChatService.handle_tarot_mode_cards` (`chat_service.py:558-645`). -/
def handle_tarot_mode_cards (env : Env) (s : TgSession) (u : User) (chat_id : Int)
    (text : String) (db : Db) : TgSession × User × Db :=
  if text = "В меню" ∨ text = "Назад в меню" then
    let s2 := reset_tarot_mode s
    let db := show_main_menu env db chat_id u
    ({ s2 with state := "main_menu" }, u, db)
  else
    match parse_tarot_cards text with
    | none =>
      let db := send_message env db chat_id tarotFormatRepromptMsg
      ({ s with state := "tarot_mode_cards" }, u, db)
    | some cards =>
      match s.data.tarot_mode_cards_required with
      | some required =>
        if cards.length ≠ required then
          let db := send_message env db chat_id (tarotCountMismatchMsg required)
          ({ s with state := "tarot_mode_cards" }, u, db)
        else tarot_mode_cards_proceed env s u chat_id db cards
      | none =>
        if cards.length < 3 then
          let db := send_message env db chat_id
            "Нужно минимум 3 карты. Повтори, пожалуйста, по примеру."
          ({ s with state := "tarot_mode_cards" }, u, db)
        else tarot_mode_cards_proceed env s u chat_id db cards

/-! ## Concrete fixtures used by witness theorems -/

/-- An environment with inert adapters, for concrete evaluations. -/
def envTrivial : Env :=
  { now := ⟨2025, 3, 10, 12, 0, 0⟩,
    ai := fun _ _ => none,
    paymentStatus := fun _ => none,
    sendOk := fun _ _ => true }

/-- A payment record already reconciled as `succeeded`. -/
def payFixture : PaymentRecord :=
  { id := 1, chat_id := 5, yookassa_payment_id := "pay-1", status := "succeeded",
    amount_rub := 200, months := 1, confirmation_url := none,
    created_at := "2025-03-10 11:00:00", paid_at := some "2025-03-10 11:05:00" }

/-- A database holding only `payFixture`. -/
def dbPayFixture : Db := { payments := [payFixture] }

/-- A session parked in `await_payment` for chat 5. -/
def sessAwait : TgSession := { chat_id := 5, state := "await_payment", data := {} }

/-- A fresh user for chat 5. -/
def userFresh : User := { chat_id := 5 }

/-- An environment whose completion adapter answers. -/
def envAI : Env :=
  { envTrivial with ai := fun _ _ => some { content := "Карты говорят: всё сложится." } }

/-- A paid subscriber on chat 7. -/
def userPaid : User :=
  { chat_id := 7, name := some "Анна", subscription := some "paid" }

/-- A free-tier user on chat 9. -/
def userFree : User := { chat_id := 9, name := some "Оля" }

/-- A session in `taro_ask_question` with a chosen spread type (chat 7). -/
def sessTaroAsk : TgSession :=
  { chat_id := 7, state := "taro_ask_question", data := { taro_type := some "Таро на день" } }

/-- A session in `taro_ask_question` for the free user (chat 9). -/
def sessTaroAskFree : TgSession :=
  { chat_id := 9, state := "taro_ask_question", data := { taro_type := some "Таро на любовь" } }

/-- A paid 7-card reading made today (2025-03-10, `envTrivial`/`envAI` date). -/
def taroRow7 : TaroReading :=
  { chat_id := 7, user_name := some "Анна", birth_date := none,
    type_value := "Таро на день", question := "q", cards_count := 7,
    result := "r", created_date := "2025-03-10" }

/-- Ten paid readings already made today by chat 7. -/
def dbTaro10 : Db := { taro_readings := List.replicate 10 taroRow7 }

/-- The free 3-card reading chat 9 already consumed. -/
def taroRow3 : TaroReading :=
  { chat_id := 9, user_name := some "Оля", birth_date := none,
    type_value := "Таро на любовь", question := "q0", cards_count := 3,
    result := "r0", created_date := "2025-03-01" }

/-- A database where chat 9 already consumed the free 3-card reading. -/
def dbFreeUsed : Db := { taro_readings := [taroRow3] }

/-- A session in the free companion chat (chat 9). -/
def sessPodFree : TgSession := { chat_id := 9, state := "podruzhka_free", data := {} }

/-- A session in the paid companion chat (chat 7). -/
def sessPodChat : TgSession := { chat_id := 7, state := "podruzhka_chat", data := {} }

/-- A due plain reminder whose delivery will fail. -/
def remRow1 : ReminderRow :=
  { id := 0, chat_id := 1, message := "напоминание-1",
    send_at := ⟨2025, 3, 10, 9, 0, 0⟩, sent_at := none }

/-- A second due plain reminder. -/
def remRow2 : ReminderRow :=
  { id := 1, chat_id := 2, message := "напоминание-2",
    send_at := ⟨2025, 3, 10, 10, 0, 0⟩, sent_at := none }

/-- A database with the two due reminders. -/
def dbRem : Db := { reminders := [remRow1, remRow2] }

/-- An environment where delivering the first reminder fails. -/
def envSendFail : Env :=
  { envTrivial with sendOk := fun _ t => t ≠ "напоминание-1" }

/-- A spread text mentioning a five-card spread, for the C2 witness. -/
def spreadFix : String :=
  "Подкова (5 карт): прошлое, настоящее, будущее, совет, итог"

/-- Session waiting for the card list of a five-card spread. -/
def sessTarot5 : TgSession :=
  { chat_id := 7, state := "tarot_mode_cards",
    data := { tarot_mode_topic := some "отношения",
              tarot_mode_timeframe := some "месяц",
              tarot_mode_spread_text := some spreadFix,
              tarot_mode_cards_required := some 5 } }

/-- Five well-formed `name (orientation)` entries. -/
def entriesFix5 : List CardEntry :=
  [(["Маг".toList], ["прямая".toList]),
   (["Король".toList, "мечей".toList], ["перевёрнутая".toList]),
   (["Тройка".toList, "кубков".toList], ["прямая".toList]),
   (["Луна".toList], ["перевёрнутая".toList]),
   (["Солнце".toList], ["прямая".toList])]

/-- The first four of the five entries. -/
def entriesFix4 : List CardEntry := entriesFix5.take 4

/-- Five entries of which the second has an unrecognized orientation word. -/
def entriesBad : List CardEntry :=
  [(["Маг".toList], ["прямая".toList]),
   (["Башня".toList], ["вверх".toList]),
   (["Тройка".toList, "кубков".toList], ["прямая".toList]),
   (["Луна".toList], ["перевёрнутая".toList]),
   (["Солнце".toList], ["прямая".toList])]

/-- An empty database. -/
def dbEmpty : Db := {}

/-! ## Theorems -/

set_option maxHeartbeats 1000000 in
/-- Every month has at least one day. -/
theorem monthrangeDays_pos (y m : Nat) : 1 ≤ monthrangeDays y m := by
  unfold monthrangeDays
  split_ifs <;> omega

/-- C9: the month-addition helper `_add_months` maps any valid date plus
any number of months to a valid date by capping the day at the target
month's length, and adding 1 month to January 31 yields the last day of
February — 29 in a leap year, 28 otherwise — never an invalid date or a
rollover into March. -/
theorem add_months_valid_and_jan31 :
    (∀ (d : DateTimeP) (m : Nat), validDate d → validDate (add_months d m)) ∧
    (∀ y h mi s : Nat, add_months ⟨y, 1, 31, h, mi, s⟩ 1 =
      ⟨y, 2, if isLeapYear y then 29 else 28, h, mi, s⟩) := by
  constructor
  · intro d m hd
    obtain ⟨h1, h2, h3, h4⟩ := hd
    have hmod : (d.month - 1 + m) % 12 < 12 := Nat.mod_lt _ (by omega)
    have hpos := monthrangeDays_pos (d.year + (d.month - 1 + m) / 12)
      ((d.month - 1 + m) % 12 + 1)
    simp only [add_months, validDate]
    exact ⟨Nat.le_add_left 1 _, by omega,
      Nat.le_min.mpr ⟨h3, hpos⟩, Nat.min_le_right _ _⟩
  · intro y h mi s
    cases hy : isLeapYear y <;> simp [add_months, monthrangeDays, hy]

/-- Witness for C9 at concrete dates: January 31 of leap year 2024 maps to
February 29, of common year 2025 to February 28, and validity holds. -/
theorem add_months_valid_and_jan31_witness :
    validDate (add_months ⟨2025, 1, 31, 0, 0, 0⟩ 1) ∧
    add_months ⟨2024, 1, 31, 12, 0, 0⟩ 1 = ⟨2024, 2, 29, 12, 0, 0⟩ ∧
    add_months ⟨2025, 1, 31, 12, 0, 0⟩ 1 = ⟨2025, 2, 28, 12, 0, 0⟩ :=
  ⟨add_months_valid_and_jan31.1 ⟨2025, 1, 31, 0, 0, 0⟩ 1 (by decide),
   (add_months_valid_and_jan31.2 2024 12 0 0).trans (by decide),
   (add_months_valid_and_jan31.2 2025 12 0 0).trans (by decide)⟩

/-- C4: `_activate_subscription` for `months` months always sets the
expiry to `now + months` months, independently of every prior user field
(in particular of any unexpired `subscription_expires_at`), so activating
twice at the same instant yields the same expiry both times — no
stacking. -/
theorem activate_subscription_no_stacking :
    ∀ (u₁ u₂ : User) (now : DateTimeP) (months : Nat),
      (activate_subscription now u₁ months).subscription_expires_at =
        some (fmtDateTime (add_months now months)) ∧
      (activate_subscription now u₁ months).subscription_expires_at =
        (activate_subscription now u₂ months).subscription_expires_at ∧
      activate_subscription now (activate_subscription now u₁ months) months =
        activate_subscription now u₁ months :=
  fun _ _ _ _ => ⟨rfl, rfl, rfl⟩

/-- C3: payment reconciliation is idempotent in the `succeeded` state —
when the local record for the payment id is already `succeeded`,
`_process_payment_status` returns before touching anything: no
activation, no status update, no outbound send, session and user
unchanged. -/
theorem process_payment_status_succeeded_noop :
    ∀ (env : Env) (session : TgSession) (user : User) (chat_id : Int)
      (payment_id : String) (notify_pending notify_errors : Bool) (db : Db)
      (p : PaymentRecord),
      get_payment_by_id db payment_id = some p →
      p.status = "succeeded" →
      process_payment_status env session user chat_id payment_id
        notify_pending notify_errors db = (session, user, db) := by
  intro env session user chat_id payment_id np ne db p hfind hst
  simp [process_payment_status, hfind, payment_succeeded_local, hst]

/-- Witness for C3: a concrete repeated reconciliation of an already
`succeeded` payment changes nothing. -/
theorem process_payment_status_succeeded_noop_witness :
    process_payment_status envTrivial sessAwait userFresh 5 "pay-1" true true
      dbPayFixture = (sessAwait, userFresh, dbPayFixture) :=
  process_payment_status_succeeded_noop envTrivial sessAwait userFresh 5 "pay-1"
    true true dbPayFixture payFixture (by decide) rfl

/-! ### Frame lemmas: which tables each primitive touches -/

@[simp] theorem count_taro_send_message (env : Env) (db : Db) (c : Int) (t : String)
    (k : List (List String)) (f : Option String) (chat : Int) (cc : Nat) :
    count_taro_readings (send_message env db c t k f) chat cc =
      count_taro_readings db chat cc := rfl

@[simp] theorem count_taro_show_main_menu (env : Env) (db : Db) (c : Int) (u : User)
    (chat : Int) (cc : Nat) :
    count_taro_readings (show_main_menu env db c u) chat cc =
      count_taro_readings db chat cc := rfl

@[simp] theorem count_taro_ask_ai (env : Env) (db : Db) (p : String)
    (sys : Option String) (chat : Int) (cc : Nat) :
    count_taro_readings (ask_ai env db p sys).2 chat cc =
      count_taro_readings db chat cc := rfl

@[simp] theorem count_taro_schedule_retention (env : Env) (db : Db) (u : User)
    (chat : Int) (cc : Nat) :
    count_taro_readings (schedule_retention env db u) chat cc =
      count_taro_readings db chat cc := by
  unfold schedule_retention
  split_ifs <;> rfl

@[simp] theorem send_message_outbox (env : Env) (db : Db) (c : Int) (t : String)
    (k : List (List String)) (f : Option String) :
    (send_message env db c t k f).outbox =
      db.outbox ++ [{ chat_id := c, text := t, keyboard := k,
                      delivered := env.sendOk c t }] := rfl

/-- Appending a reading changes the per-chat per-cards count by exactly the
match indicator of the new row. -/
theorem count_taro_readings_create (db : Db) (env : Env) (cid : Int)
    (un bd : Option String) (tv q res : String) (cc : Nat) (chat : Int) (cc2 : Nat) :
    count_taro_readings
        (create_taro_reading db env cid un bd tv q cc res) chat cc2 =
      count_taro_readings db chat cc2 + (if cid = chat ∧ cc = cc2 then 1 else 0) := by
  by_cases h : cid = chat ∧ cc = cc2
  · simp [count_taro_readings, create_taro_reading, List.filter_append,
      List.filter, h.1, h.2]
  · have hb : (decide (cid = chat) && decide (cc = cc2)) = false := by
      rcases Decidable.not_and_iff_or_not.mp h with h' | h' <;> simp [h']
    simp [count_taro_readings, create_taro_reading, List.filter_append,
      List.filter, h, hb]

/-- One step of `handle_taro_question` for a non-paid user never pushes the
free 3-card count above `max count 1`. -/
theorem taro_count_step (env : Env) (s : TgSession) (u : User) (chat : Int)
    (text : String) (db : Db) (hu : u.subscription ≠ some "paid") :
    count_taro_readings (handle_taro_question env s u chat text db).2.2 u.chat_id 3 ≤
      max (count_taro_readings db u.chat_id 3) 1 := by
  unfold handle_taro_question
  by_cases h1 : text = "Назад в меню"
  · simp [h1]
  rw [if_neg h1]
  by_cases h2 : text = "Задать вопрос"
  · simp [h2]
  rw [if_neg h2]
  by_cases h3 : u.subscription ≠ some "paid" ∧ 1 ≤ count_taro_readings db u.chat_id 3
  · simp [if_pos h3]
  rw [if_neg h3]
  have hpaid : ¬(u.subscription = some "paid" ∧
      10 ≤ count_taro_readings_for_date db u.chat_id 3 (fmtDate env.now)) :=
    fun hh => hu hh.1
  rw [if_neg hpaid]
  have hc : count_taro_readings db u.chat_id 3 = 0 := by
    have h4 : ¬ 1 ≤ count_taro_readings db u.chat_id 3 := fun hh => h3 ⟨hu, hh⟩
    omega
  simp only [if_neg hu]
  simp [count_taro_readings_create, hc]

/-- The fold invariant behind the once-only free reading. -/
theorem taro_fold_le_one (u : User) (hu : u.subscription ≠ some "paid") :
    ∀ (steps : List (Env × TgSession × Int × String)) (db : Db),
      count_taro_readings db u.chat_id 3 ≤ 1 →
      count_taro_readings
        (steps.foldl
          (fun d st => (handle_taro_question st.1 st.2.1 u st.2.2.1 st.2.2.2 d).2.2) db)
        u.chat_id 3 ≤ 1 := by
  intro steps
  induction steps with
  | nil => intro db h; simpa using h
  | cons st rest ih =>
    intro db h
    refine ih _ ?_
    calc count_taro_readings (handle_taro_question st.1 st.2.1 u st.2.2.1 st.2.2.2 db).2.2
          u.chat_id 3 ≤ max (count_taro_readings db u.chat_id 3) 1 :=
            taro_count_step st.1 st.2.1 u st.2.2.1 st.2.2.2 db hu
      _ ≤ 1 := by omega

/-- C6: for a user with `subscription != 'paid'`, once a free 3-card
reading exists every further question in `taro_ask_question` is answered
with the already-used message and creates no reading row, and under any
sequence of such updates the count of 3-card readings for the chat never
exceeds 1. -/
theorem taro_free_reading_at_most_once :
    ∀ (u : User), u.subscription ≠ some "paid" →
    (∀ (env : Env) (s : TgSession) (chat : Int) (text : String) (db : Db),
       1 ≤ count_taro_readings db u.chat_id 3 →
       text ≠ "Назад в меню" → text ≠ "Задать вопрос" →
       (handle_taro_question env s u chat text db).2.2.taro_readings = db.taro_readings ∧
       (handle_taro_question env s u chat text db).2.2.outbox.map OutMsg.text =
         db.outbox.map OutMsg.text ++ [taroFreeUsedMsg] ∧
       (handle_taro_question env s u chat text db).1.state = "main_menu") ∧
    (∀ (steps : List (Env × TgSession × Int × String)) (db : Db),
       count_taro_readings db u.chat_id 3 = 0 →
       count_taro_readings
         (steps.foldl
           (fun d st => (handle_taro_question st.1 st.2.1 u st.2.2.1 st.2.2.2 d).2.2) db)
         u.chat_id 3 ≤ 1) := by
  intro u hu
  constructor
  · intro env s chat text db hc h1 h2
    unfold handle_taro_question
    rw [if_neg h1, if_neg h2, if_pos ⟨hu, hc⟩]
    refine ⟨rfl, ?_, rfl⟩
    simp [send_message, tg_send_message, log_chat_message]
  · intro steps db h0
    exact taro_fold_le_one u hu steps db (by omega)

/-- Witness for C6 at concrete inputs: with the free reading already taken,
a further question adds no row and triggers the already-used reply; and
two consecutive question updates starting from an empty database leave at
most one 3-card reading. -/
theorem taro_free_reading_at_most_once_witness :
    ((handle_taro_question envAI sessTaroAskFree userFree 9 "Любит ли он меня?"
        dbFreeUsed).2.2.taro_readings = dbFreeUsed.taro_readings ∧
      (handle_taro_question envAI sessTaroAskFree userFree 9 "Любит ли он меня?"
        dbFreeUsed).2.2.outbox.map OutMsg.text =
        dbFreeUsed.outbox.map OutMsg.text ++ [taroFreeUsedMsg]) ∧
    count_taro_readings
      ([(envAI, sessTaroAskFree, (9 : Int), "Любит ли он меня?"),
        (envAI, sessTaroAskFree, (9 : Int), "А завтра?")].foldl
        (fun d st => (handle_taro_question st.1 st.2.1 userFree st.2.2.1 st.2.2.2 d).2.2)
        {}) userFree.chat_id 3 ≤ 1 := by
  have h := taro_free_reading_at_most_once userFree (by decide)
  have h1 := h.1 envAI sessTaroAskFree 9 "Любит ли он меня?" dbFreeUsed
    (by decide) (by decide) (by decide)
  exact ⟨⟨h1.1, h1.2.1⟩, h.2 _ {} (by decide)⟩

@[simp] theorem send_message_ai_calls (env : Env) (db : Db) (c : Int) (t : String)
    (k : List (List String)) (f : Option String) :
    (send_message env db c t k f).ai_calls = db.ai_calls := rfl

/-- The farewell label carries no distress keyword, so a distress text is
never routed into the farewell branch. -/
theorem is_distress_ne_end_talk (text : String)
    (hd : is_distress_message text = true) : text ≠ "Закончить разговор" := by
  intro he
  rw [he] at hd
  exact absurd hd (by decide)

/-- C8: in both companion-chat states, a distress keyword in the inbound
text makes the handler send the safety message and return with session,
user, and every other table untouched; in particular the completion
adapter is never invoked for that update, regardless of quotas or any
other routing. -/
theorem podruzhka_distress_short_circuits :
    ∀ (env : Env) (s : TgSession) (u : User) (chat : Int) (text : String) (db : Db),
      is_distress_message text = true →
      (handle_podruzhka_free env s u chat text db =
          (s, u, send_message env db chat distressSafetyMsg [["Закончить разговор"]]) ∧
        (handle_podruzhka_free env s u chat text db).2.2.ai_calls = db.ai_calls ∧
        (handle_podruzhka_free env s u chat text db).2.2.outbox.map OutMsg.text =
          db.outbox.map OutMsg.text ++ [distressSafetyMsg]) ∧
      (handle_podruzhka_chat env s u chat text db =
          (s, u, send_message env db chat distressSafetyMsg [["Закончить разговор"]]) ∧
        (handle_podruzhka_chat env s u chat text db).2.2.ai_calls = db.ai_calls ∧
        (handle_podruzhka_chat env s u chat text db).2.2.outbox.map OutMsg.text =
          db.outbox.map OutMsg.text ++ [distressSafetyMsg]) := by
  intro env s u chat text db hd
  have hne := is_distress_ne_end_talk text hd
  constructor
  · have he : handle_podruzhka_free env s u chat text db =
        (s, u, send_message env db chat distressSafetyMsg [["Закончить разговор"]]) := by
      unfold handle_podruzhka_free
      rw [if_neg hne, if_pos hd]
    exact ⟨he, by rw [he]; simp, by rw [he]; simp⟩
  · have he : handle_podruzhka_chat env s u chat text db =
        (s, u, send_message env db chat distressSafetyMsg [["Закончить разговор"]]) := by
      unfold handle_podruzhka_chat
      rw [if_neg hne, if_pos hd]
    exact ⟨he, by rw [he]; simp, by rw [he]; simp⟩

/-- Witness for C8: a concrete distress message in both companion states
yields exactly the safety send and no completion call. -/
theorem podruzhka_distress_short_circuits_witness :
    is_distress_message "я хочу умереть" = true ∧
    handle_podruzhka_free envAI sessPodFree userFree 9 "я хочу умереть" {} =
      (sessPodFree, userFree,
        send_message envAI {} 9 distressSafetyMsg [["Закончить разговор"]]) ∧
    (handle_podruzhka_chat envAI sessPodChat userPaid 7 "я хочу умереть" {}).2.2.ai_calls =
      ([] : List String) := by
  have h := podruzhka_distress_short_circuits envAI sessPodFree userFree 9
    "я хочу умереть" {} (by decide)
  have h2 := podruzhka_distress_short_circuits envAI sessPodChat userPaid 7
    "я хочу умереть" {} (by decide)
  exact ⟨by decide, h.1.1, h2.2.2.1⟩

/-- C10: an update without a `message` entry makes `handle_update` return
immediately: nothing is logged, no session or user row is read or created,
nothing is sent — the database is unchanged, for every possible per-state
dispatch. -/
theorem handle_update_no_message_noop :
    ∀ (dispatch : DispatchFn) (env : Env) (upd : TgUpdate) (db : Db),
      upd.message = none → handle_update dispatch env upd db = db := by
  intro d env upd db h
  unfold handle_update
  rw [h]

/-- Witness for C10: a concrete message-less update leaves an empty
database empty under an identity dispatch. -/
theorem handle_update_no_message_noop_witness :
    handle_update (fun _ s u _ _ db => (s, u, db)) envTrivial
      { update_id := some 10 } {} = {} :=
  handle_update_no_message_noop (fun _ s u _ _ db => (s, u, db)) envTrivial
    { update_id := some 10 } {} rfl

/-! ### Reminder-scheduler lemmas -/

@[simp] theorem reminders_tg_send (env : Env) (db : Db) (c : Int) (t : String)
    (k : List (List String)) :
    (tg_send_message env db c t k).reminders = db.reminders := rfl

@[simp] theorem reminders_log (db : Db) (env : Env) (c : Int) (role content : String)
    (f src : Option String) :
    (log_chat_message db env c role content f src).reminders = db.reminders := rfl

@[simp] theorem reminders_send (env : Env) (db : Db) (c : Int) (t : String)
    (k : List (List String)) (f : Option String) :
    (send_message env db c t k f).reminders = db.reminders := rfl

@[simp] theorem reminders_show_menu (env : Env) (db : Db) (c : Int) (u : User) :
    (show_main_menu env db c u).reminders = db.reminders := rfl

@[simp] theorem reminders_save_user (db : Db) (u : User) :
    (save_user db u).reminders = db.reminders := rfl

@[simp] theorem reminders_save_session (db : Db) (s : TgSession) :
    (save_session db s).reminders = db.reminders := rfl

@[simp] theorem reminders_update_payment (db : Db) (pid status : String)
    (paid_at : Option String) :
    (update_payment_status db pid status paid_at).reminders = db.reminders := rfl

@[simp] theorem reminders_get_or_create_user (db : Db) (c : Int) :
    (get_or_create_user db c).2.reminders = db.reminders := by
  unfold get_or_create_user
  split <;> rfl

@[simp] theorem reminders_get_or_create_session (db : Db) (c : Int) :
    (get_or_create_session db c).2.reminders = db.reminders := by
  unfold get_or_create_session
  split <;> rfl

@[simp] theorem reminders_process_payment (env : Env) (s : TgSession) (u : User)
    (c : Int) (pid : String) (np ne : Bool) (db : Db) :
    (process_payment_status env s u c pid np ne db).2.2.reminders = db.reminders := by
  unfold process_payment_status
  by_cases h : payment_succeeded_local (get_payment_by_id db pid) = true
  · rw [if_pos h]
  · rw [if_neg h]
    cases hs : env.paymentStatus pid with
    | none =>
      dsimp only
      split_ifs <;> rfl
    | some status =>
      dsimp only
      split_ifs <;> rfl

@[simp] theorem reminders_scheduled_check (env : Env) (db : Db) (c : Int)
    (pid : String) :
    (handle_scheduled_payment_check env db c pid).reminders = db.reminders := by
  unfold handle_scheduled_payment_check
  simp

@[simp] theorem reminders_sched_payment_branch (env : Env) (db : Db) (c : Int)
    (m : String) :
    (match sched_payment_id m with
      | some pid => handle_scheduled_payment_check env db c pid
      | none => db).reminders = db.reminders := by
  cases sched_payment_id m <;> simp

/-- The marked-sent property only looks at the reminders table. -/
theorem markedSent_of_eq (db₁ db₂ : Db) (i : Nat)
    (h : db₁.reminders = db₂.reminders) (hm : markedSent db₂ i) :
    markedSent db₁ i := by
  intro row hrow hid
  exact hm row (h ▸ hrow) hid

/-- Marking an id marks every row with that id. -/
theorem markedSent_mark_self (db : Db) (env : Env) (i : Nat) :
    markedSent (mark_reminder_sent db env i) i := by
  intro row hrow hid
  unfold mark_reminder_sent at hrow
  simp only [List.mem_map] at hrow
  obtain ⟨r₀, hr₀, hmap⟩ := hrow
  subst hmap
  by_cases h : r₀.id = i
  · simp [if_pos h]
  · rw [if_neg h] at hid
    exact absurd hid h

/-- Marking never unmarks. -/
theorem markedSent_mark (db : Db) (env : Env) (j i : Nat) (hm : markedSent db i) :
    markedSent (mark_reminder_sent db env j) i := by
  intro row hrow hid
  unfold mark_reminder_sent at hrow
  simp only [List.mem_map] at hrow
  obtain ⟨r₀, hr₀, hmap⟩ := hrow
  subst hmap
  by_cases h : r₀.id = j
  · simp [if_pos h]
  · rw [if_neg h] at hid ⊢
    exact hm r₀ hr₀ hid

/-- The delivery path always ends by marking its own reminder. -/
theorem sched_deliver_marks_self (env : Env) (db : Db) (r : ReminderRow) :
    markedSent (sched_deliver env db r) r.id := by
  unfold sched_deliver
  exact markedSent_mark_self _ _ _

/-- The delivery path preserves previously marked reminders. -/
theorem sched_deliver_mono (env : Env) (db : Db) (r' : ReminderRow) (i : Nat)
    (hm : markedSent db i) : markedSent (sched_deliver env db r') i := by
  unfold sched_deliver
  apply markedSent_mark
  refine markedSent_of_eq _ _ _ ?_ hm
  split_ifs <;> simp

/-- Every branch of the loop body marks the processed reminder. -/
theorem sched_step_marks_self (env : Env) (db : Db) (r : ReminderRow) :
    markedSent (sched_step env db r) r.id := by
  unfold sched_step
  split_ifs with h1 h2 h3
  · exact markedSent_mark_self _ _ _
  · exact markedSent_mark_self _ _ _
  · exact sched_deliver_marks_self _ _ _
  · exact sched_deliver_marks_self _ _ _

/-- The loop body preserves previously marked reminders. -/
theorem sched_step_mono (env : Env) (db : Db) (r' : ReminderRow) (i : Nat)
    (hm : markedSent db i) : markedSent (sched_step env db r') i := by
  unfold sched_step
  split_ifs with h1 h2 h3
  · exact markedSent_mark _ _ _ _ (markedSent_of_eq _ _ _ (by simp) hm)
  · exact markedSent_mark _ _ _ _ (markedSent_of_eq _ _ _ (by simp) hm)
  · exact sched_deliver_mono _ _ _ _ (markedSent_of_eq _ _ _ (by simp) hm)
  · exact sched_deliver_mono _ _ _ _ hm

/-- Folding the loop body preserves marks. -/
theorem sched_fold_mono (env : Env) :
    ∀ (l : List ReminderRow) (db : Db) (i : Nat), markedSent db i →
      markedSent (l.foldl (sched_step env) db) i := by
  intro l
  induction l with
  | nil => intro db i h; simpa using h
  | cons x rest ih =>
    intro db i h
    exact ih _ _ (sched_step_mono env db x i h)

/-- Folding the loop body marks every reminder of the batch. -/
theorem sched_fold_marks (env : Env) :
    ∀ (l : List ReminderRow) (db : Db) (r : ReminderRow), r ∈ l →
      markedSent (l.foldl (sched_step env) db) r.id := by
  intro l
  induction l with
  | nil => intro db r h; cases h
  | cons x rest ih =>
    intro db r h
    rcases List.mem_cons.mp h with rfl | h
    · exact sched_fold_mono env rest _ _ (sched_step_marks_self env db r)
    · exact ih _ r h

/-- C5: every reminder due in the batch is processed and marked sent by
`_send_due_reminders`, for every environment — in particular for every
delivery-failure pattern, since the messaging adapter swallows delivery
errors and a failed send cannot abort the loop. -/
theorem send_due_reminders_marks_all :
    ∀ (env : Env) (db : Db) (r : ReminderRow),
      r ∈ get_due_reminders db env.now →
      markedSent (send_due_reminders env db) r.id := by
  intro env db r h
  exact sched_fold_marks env _ db r h

/-- Witness for C5: with two due reminders and the first delivery failing,
both reminders end up marked sent and the outbox records one failed and
one successful delivery. -/
theorem send_due_reminders_marks_all_witness :
    markedSent (send_due_reminders envSendFail dbRem) 0 ∧
    markedSent (send_due_reminders envSendFail dbRem) 1 ∧
    (send_due_reminders envSendFail dbRem).outbox.map OutMsg.delivered =
      [false, true] :=
  ⟨send_due_reminders_marks_all envSendFail dbRem remRow1 (by decide),
   send_due_reminders_marks_all envSendFail dbRem remRow2 (by decide),
   by decide⟩

/-- C7: the card count extracted from a spread text is always within
`[3, 7]`; a present `(N карт…)` group is parsed case-insensitively, out of
range values are clamped to the default 5, and a missing group defaults
to 5. -/
theorem extract_cards_count_range_and_clamp :
    (∀ s : String, 3 ≤ extract_tarot_spread_cards_count s ∧
      extract_tarot_spread_cards_count s ≤ 7) ∧
    extract_tarot_spread_cards_count "Расклад “Фокус” (5 карт)" = 5 ∧
    extract_tarot_spread_cards_count "Расклад (4 КАРТЫ)" = 4 ∧
    extract_tarot_spread_cards_count "Расклад (2 карты)" = 5 ∧
    extract_tarot_spread_cards_count "Расклад (9 карт)" = 5 ∧
    extract_tarot_spread_cards_count "Расклад без числа" = 5 := by
  refine ⟨?_, by decide, by decide, by decide, by decide, by decide⟩
  intro s
  unfold extract_tarot_spread_cards_count
  cases findCardCount s.toList with
  | none => simp
  | some v =>
    simp only []
    split_ifs with h <;> omega

/-- C1 (the code contradicts the claim): a paid user on chat 7 already has
ten 7-card readings dated today, yet the eleventh question is not rejected
— a new `taro_readings` row is created and the quota message is not sent,
because `handle_taro_question` counts rows with `cards_count = 3` while
paid readings are stored with `cards_count = 7`
(`chat_service.py:403,419-422,461-467`). -/
theorem handle_taro_question_paid_quota_not_enforced :
    count_taro_readings_for_date dbTaro10 7 7 "2025-03-10" = 10 ∧
    count_taro_readings_for_date dbTaro10 7 3 "2025-03-10" = 0 ∧
    fmtDate envAI.now = "2025-03-10" ∧
    (handle_taro_question envAI sessTaroAsk userPaid 7 "Будем ли мы вместе?"
      dbTaro10).2.2.taro_readings.length = 11 ∧
    ((handle_taro_question envAI sessTaroAsk userPaid 7 "Будем ли мы вместе?"
      dbTaro10).2.2.outbox.map OutMsg.text).contains taroPaidQuotaMsg = false := by
  decide

/-! ### Card-line lemmas: joins, strips and splits on well-formed input -/

theorem joinW_cons (w : List Char) (ws : List (List Char)) (h : ws ≠ []) :
    joinW (w :: ws) = w ++ ' ' :: joinW ws := by
  cases ws with
  | nil => exact absurd rfl h
  | cons w2 ws2 => rfl

theorem mem_joinW (ws : List (List Char)) (c : Char) (hc : c ∈ joinW ws) :
    c = ' ' ∨ ∃ w ∈ ws, c ∈ w := by
  induction ws with
  | nil => simp [joinW] at hc
  | cons w ws ih =>
    cases ws with
    | nil =>
      exact Or.inr ⟨w, by simp, hc⟩
    | cons w2 ws2 =>
      rw [joinW_cons w (w2 :: ws2) (by simp)] at hc
      rcases List.mem_append.mp hc with h | h
      · exact Or.inr ⟨w, by simp, h⟩
      · rcases List.mem_cons.mp h with h | h
        · exact Or.inl h
        · rcases ih h with h | ⟨w', hw', hc'⟩
          · exact Or.inl h
          · exact Or.inr ⟨w', by simp [hw'], hc'⟩

theorem joinW_ne_nil (ws : List (List Char)) (hne : ws ≠ [])
    (hw : ∀ w ∈ ws, w ≠ []) : joinW ws ≠ [] := by
  cases ws with
  | nil => exact absurd rfl hne
  | cons w ws =>
    cases ws with
    | nil => exact hw w (by simp)
    | cons w2 ws2 =>
      rw [joinW_cons w (w2 :: ws2) (by simp)]
      intro h
      rcases List.append_eq_nil.mp h with ⟨_, h2⟩
      exact List.cons_ne_nil _ _ h2

theorem joinW_head (ws : List (List Char)) (hne : ws ≠ [])
    (hw : ∀ w ∈ ws, w ≠ []) : ∃ t, joinW ws = headCh ws :: t := by
  cases ws with
  | nil => exact absurd rfl hne
  | cons w ws =>
    have hwne : w ≠ [] := hw w (by simp)
    cases w with
    | nil => exact absurd rfl hwne
    | cons a w' =>
      cases ws with
      | nil => exact ⟨w', rfl⟩
      | cons w2 ws2 =>
        rw [joinW_cons _ (w2 :: ws2) (by simp)]
        exact ⟨w' ++ ' ' :: joinW (w2 :: ws2), rfl⟩

theorem joinW_getLast (ws : List (List Char)) (hne : ws ≠ [])
    (hw : ∀ w ∈ ws, w ≠ []) :
    ∃ b, (joinW ws).getLast? = some b ∧ b ∈ ws.getLast (by simpa using hne) := by
  induction ws with
  | nil => exact absurd rfl hne
  | cons w ws ih =>
    cases ws with
    | nil =>
      have hwne : w ≠ [] := hw w (by simp)
      refine ⟨w.getLast hwne, ?_, ?_⟩
      · exact List.getLast?_eq_getLast w hwne
      · simpa using List.getLast_mem hwne
    | cons w2 ws2 =>
      rw [joinW_cons _ (w2 :: ws2) (by simp)]
      obtain ⟨b, hb, hmem⟩ := ih (by simp) (fun w' hw' => hw w' (by simp [hw']))
      refine ⟨b, ?_, ?_⟩
      · rw [List.getLast?_append_of_ne_nil w (by simp)]
        rw [show (' ' :: joinW (w2 :: ws2) : List Char) =
          [' '] ++ joinW (w2 :: ws2) from rfl]
        rw [List.getLast?_append_of_ne_nil [' ']
          (joinW_ne_nil _ (by simp) (fun w' hw' => hw w' (by simp [hw'])))]
        exact hb
      · simpa using hmem

theorem dropLeadWs_cons (a : Char) (t : List Char) (h : pyIsSpace a = false) :
    dropLeadWs (a :: t) = a :: t := by
  simp [dropLeadWs, List.dropWhile_cons, h]

theorem dropTrailWs_eq_self (s : List Char) (b : Char)
    (hb : s.getLast? = some b) (h : pyIsSpace b = false) : dropTrailWs s = s := by
  unfold dropTrailWs
  have h1 : s.reverse.head? = some b := by rw [List.head?_reverse]; exact hb
  cases hrev : s.reverse with
  | nil => rw [hrev] at h1; simp at h1
  | cons x xs =>
    have hx : x = b := by rw [hrev] at h1; simpa using h1
    have hpx : pyIsSpace x = false := by rw [hx]; exact h
    rw [List.dropWhile_cons, hpx]
    have hred : (if (false = true) then List.dropWhile pyIsSpace xs else x :: xs)
        = x :: xs := by simp
    rw [hred, ← hrev, List.reverse_reverse]

theorem dropTrailWs_space (xs : List Char) (c : Char) (h : pyIsSpace c = true) :
    dropTrailWs (xs ++ [c]) = dropTrailWs xs := by
  unfold dropTrailWs
  rw [List.reverse_append]
  simp [List.dropWhile_cons, h]

theorem wordsAux_chunk (w : List Char) :
    ∀ (cur rest : List Char), (∀ c ∈ w, pyIsSpace c = false) →
      wordsAux (w ++ rest) cur = wordsAux rest (w.reverse ++ cur) := by
  induction w with
  | nil => intro cur rest _; simp
  | cons c w ih =>
    intro cur rest h
    have hc : pyIsSpace c = false := h c (by simp)
    show wordsAux (c :: (w ++ rest)) cur = _
    rw [wordsAux, hc]
    simp only [Bool.false_eq_true, if_false]
    rw [ih (c :: cur) rest (fun c' hc' => h c' (by simp [hc']))]
    simp

theorem wordsL_single (w : List Char) (hne : w ≠ [])
    (h : ∀ c ∈ w, pyIsSpace c = false) : wordsL w = [w] := by
  unfold wordsL
  have := wordsAux_chunk w [] [] h
  rw [List.append_nil] at this
  rw [this]
  unfold wordsAux
  simp [hne]

theorem wordsL_joinW (ws : List (List Char))
    (h : ∀ w ∈ ws, w ≠ [] ∧ ∀ c ∈ w, pyIsSpace c = false) :
    wordsL (joinW ws) = ws := by
  induction ws with
  | nil => rfl
  | cons w ws ih =>
    obtain ⟨hwne, hwc⟩ := h w (by simp)
    cases ws with
    | nil => exact wordsL_single w hwne hwc
    | cons w2 ws2 =>
      rw [joinW_cons w (w2 :: ws2) (by simp)]
      unfold wordsL
      rw [wordsAux_chunk w [] (' ' :: joinW (w2 :: ws2)) hwc]
      rw [List.append_nil]
      rw [wordsAux]
      have hsp : pyIsSpace ' ' = true := by decide
      rw [hsp]
      have hrevne : w.reverse.isEmpty = false := by
        cases hw : w.reverse with
        | nil => exact absurd (List.reverse_eq_nil_iff.mp hw) hwne
        | cons _ _ => rfl
      simp only [if_true, hrevne, Bool.false_eq_true, if_false]
      rw [List.reverse_reverse]
      have ih2 := ih (fun w' hw' => h w' (by simp [hw']))
      unfold wordsL at ih2
      rw [ih2]

theorem collapseWsL_joinW (ws : List (List Char))
    (h : ∀ w ∈ ws, w ≠ [] ∧ ∀ c ∈ w, pyIsSpace c = false) :
    collapseWsL (joinW ws) = joinW ws := by
  unfold collapseWsL
  rw [wordsL_joinW ws h]

theorem joinW_append (xs ys : List (List Char)) (hx : xs ≠ []) (hy : ys ≠ []) :
    joinW (xs ++ ys) = joinW xs ++ ' ' :: joinW ys := by
  induction xs with
  | nil => exact absurd rfl hx
  | cons w xs ih =>
    cases xs with
    | nil =>
      cases ys with
      | nil => exact absurd rfl hy
      | cons y ys2 => simp [joinW_cons w (y :: ys2) (by simp), joinW]
    | cons w2 xs2 =>
      rw [show (w :: w2 :: xs2) ++ ys = w :: ((w2 :: xs2) ++ ys) from rfl]
      rw [joinW_cons w ((w2 :: xs2) ++ ys) (by simp)]
      rw [joinW_cons w (w2 :: xs2) (by simp)]
      rw [ih (by simp)]
      simp

theorem joinW_addRparen (ws : List (List Char)) (hne : ws ≠ []) :
    joinW (addRparen ws) = joinW ws ++ [')'] := by
  induction ws with
  | nil => exact absurd rfl hne
  | cons w ws ih =>
    cases ws with
    | nil => rfl
    | cons w2 ws2 =>
      show joinW (w :: addRparen (w2 :: ws2)) = _
      have hne2 : addRparen (w2 :: ws2) ≠ [] := by
        cases ws2 with
        | nil => simp [addRparen]
        | cons _ _ => simp [addRparen]
      rw [joinW_cons w _ hne2, joinW_cons w (w2 :: ws2) (by simp), ih (by simp)]
      simp

theorem joinW_addParens (ws : List (List Char)) (hne : ws ≠ []) :
    joinW (addParens ws) = '(' :: joinW ws ++ [')'] := by
  cases ws with
  | nil => exact absurd rfl hne
  | cons w ws =>
    cases ws with
    | nil => rfl
    | cons w2 ws2 =>
      show joinW (('(' :: w) :: addRparen (w2 :: ws2)) = _
      have hne2 : addRparen (w2 :: ws2) ≠ [] := by
        cases ws2 with
        | nil => simp [addRparen]
        | cons _ _ => simp [addRparen]
      rw [joinW_cons _ _ hne2, joinW_addRparen (w2 :: ws2) (by simp)]
      rw [joinW_cons w (w2 :: ws2) (by simp)]
      simp

theorem goodWordChar_fields (c : Char) (h : goodWordChar c = true) :
    pyIsSpace c = false ∧ c ≠ '(' ∧ c ≠ ')' := by
  simp only [goodWordChar, Bool.and_eq_true, Bool.not_eq_true', decide_eq_true_eq] at h
  exact ⟨h.1.1, h.1.2, h.2⟩

theorem goodWord_fields (w : List Char) (h : goodWord w = true) :
    w ≠ [] ∧ ∀ c ∈ w, goodWordChar c = true := by
  simp only [goodWord, Bool.and_eq_true, List.all_eq_true, Bool.not_eq_true'] at h
  refine ⟨?_, h.2⟩
  intro he
  subst he
  simp at h

theorem wfWords_fields (ws : List (List Char)) (h : wfWords ws = true) :
    ws ≠ [] ∧ ∀ w ∈ ws, goodWord w = true := by
  simp only [wfWords, Bool.and_eq_true, List.all_eq_true, Bool.not_eq_true'] at h
  refine ⟨?_, h.2⟩
  intro he
  subst he
  simp at h

/-- Good words are nonempty and whitespace-free. -/
theorem goodWord_plain (w : List Char) (h : goodWord w = true) :
    w ≠ [] ∧ ∀ c ∈ w, pyIsSpace c = false := by
  obtain ⟨h1, h2⟩ := goodWord_fields w h
  exact ⟨h1, fun c hc => (goodWordChar_fields c (h2 c hc)).1⟩

theorem addRparen_words (ws : List (List Char)) (h : ∀ w ∈ ws, goodWord w = true) :
    ∀ w ∈ addRparen ws, w ≠ [] ∧ ∀ c ∈ w, pyIsSpace c = false := by
  induction ws with
  | nil => simp [addRparen]
  | cons w ws ih =>
    have hall := goodWord_plain w (h w (by simp))
    cases ws with
    | nil =>
      intro w' hw'
      simp only [addRparen, List.mem_singleton] at hw'
      subst hw'
      refine ⟨by simp, ?_⟩
      intro c hc
      rcases List.mem_append.mp hc with hc | hc
      · exact hall.2 c hc
      · simp only [List.mem_singleton] at hc
        subst hc
        decide
    | cons w2 ws2 =>
      intro w' hw'
      simp only [addRparen] at hw'
      rcases List.mem_cons.mp hw' with rfl | hw'
      · exact hall
      · exact ih (fun w'' hw'' => h w'' (by simp [hw''])) w' hw'

theorem pyStripL_eq_self (s : List Char) (a b : Char) (ha : s.head? = some a)
    (hsa : pyIsSpace a = false) (hb : s.getLast? = some b)
    (hsb : pyIsSpace b = false) : pyStripL s = s := by
  cases s with
  | nil => simp at ha
  | cons x t =>
    have hx : x = a := by simpa using ha
    unfold pyStripL
    rw [hx, dropLeadWs_cons a t hsa]
    exact dropTrailWs_eq_self _ b (hx ▸ hb) hsb

theorem joinW_head_good (ws : List (List Char)) (h : wfWords ws = true) :
    ∃ a t, joinW ws = a :: t ∧ goodWordChar a = true := by
  obtain ⟨hne, hw⟩ := wfWords_fields ws h
  obtain ⟨t, ht⟩ := joinW_head ws hne (fun w hw' => (goodWord_fields w (hw w hw')).1)
  refine ⟨headCh ws, t, ht, ?_⟩
  cases ws with
  | nil => exact absurd rfl hne
  | cons w ws' =>
    have hwne := (goodWord_fields w (hw w (by simp))).1
    cases w with
    | nil => exact absurd rfl hwne
    | cons a w' =>
      show goodWordChar a = true
      exact (goodWord_fields (a :: w') (hw (a :: w') (by simp))).2 a (by simp)

theorem joinW_last_good (ws : List (List Char)) (h : wfWords ws = true) :
    ∃ b, (joinW ws).getLast? = some b ∧ goodWordChar b = true := by
  obtain ⟨hne, hw⟩ := wfWords_fields ws h
  obtain ⟨b, hb, hmem⟩ := joinW_getLast ws hne
    (fun w hw' => (goodWord_fields w (hw w hw')).1)
  exact ⟨b, hb, (goodWord_fields _ (hw _ (List.getLast_mem _))).2 b hmem⟩

theorem joinW_char_cases (ws : List (List Char)) (h : wfWords ws = true) :
    ∀ c ∈ joinW ws, c = ' ' ∨ goodWordChar c = true := by
  intro c hc
  obtain ⟨_, hw⟩ := wfWords_fields ws h
  rcases mem_joinW ws c hc with h' | ⟨w, hw', hcw⟩
  · exact Or.inl h'
  · exact Or.inr ((goodWord_fields w (hw w hw')).2 c hcw)

theorem joinW_no_open (ws : List (List Char)) (h : wfWords ws = true) :
    ∀ c ∈ joinW ws, c ≠ '(' := by
  intro c hc
  rcases joinW_char_cases ws h c hc with rfl | hg
  · decide
  · exact (goodWordChar_fields c hg).2.1

theorem joinW_no_close (ws : List (List Char)) (h : wfWords ws = true) :
    ∀ c ∈ joinW ws, c ≠ ')' := by
  intro c hc
  rcases joinW_char_cases ws h c hc with rfl | hg
  · decide
  · exact (goodWordChar_fields c hg).2.2

theorem joinW_no_nl (ws : List (List Char)) (h : wfWords ws = true) :
    ∀ c ∈ joinW ws, ¬(c = '\n' ∨ c = '\r') := by
  intro c hc hor
  rcases joinW_char_cases ws h c hc with rfl | hg
  · rcases hor with h' | h' <;> simp at h'
  · have := (goodWordChar_fields c hg).1
    rcases hor with rfl | rfl <;> simp [pyIsSpace] at this

theorem pyStripL_joinW (ws : List (List Char)) (h : wfWords ws = true) :
    pyStripL (joinW ws) = joinW ws := by
  obtain ⟨a, t, ht, ha⟩ := joinW_head_good ws h
  obtain ⟨b, hb, hbg⟩ := joinW_last_good ws h
  exact pyStripL_eq_self _ a b (by rw [ht]; rfl) (goodWordChar_fields a ha).1 hb
    (goodWordChar_fields b hbg).1

theorem pyStripL_joinW_space (ws : List (List Char)) (h : wfWords ws = true) :
    pyStripL (joinW ws ++ [' ']) = joinW ws := by
  obtain ⟨a, t, ht, ha⟩ := joinW_head_good ws h
  obtain ⟨b, hb, hbg⟩ := joinW_last_good ws h
  unfold pyStripL
  have h1 : dropLeadWs (joinW ws ++ [' ']) = joinW ws ++ [' '] := by
    rw [ht]
    exact dropLeadWs_cons a (t ++ [' ']) (goodWordChar_fields a ha).1
  rw [h1]
  rw [dropTrailWs_space (joinW ws) ' ' (by decide)]
  exact dropTrailWs_eq_self _ b hb (goodWordChar_fields b hbg).1

theorem parenSplitAux_skip (pre : List Char) :
    ∀ (acc rest : List Char), (∀ c ∈ pre, c ≠ '(') →
      parenSplitAux acc (pre ++ rest) = parenSplitAux (pre.reverse ++ acc) rest := by
  induction pre with
  | nil => intro acc rest _; simp
  | cons c pre ih =>
    intro acc rest h
    have hc : (c == '(') = false := by simpa using h c (by simp)
    show parenSplitAux acc (c :: (pre ++ rest)) = _
    rw [parenSplitAux, hc]
    simp only [Bool.false_and, Bool.false_eq_true, if_false]
    rw [ih (c :: acc) rest (fun c' hc' => h c' (by simp [hc']))]
    simp

theorem patternParenL_card (nws ows : List (List Char))
    (hn : wfWords nws = true) (ho : wfWords ows = true) :
    patternParenL (cardLineOf nws ows) = some (joinW nws, joinW ows) := by
  obtain ⟨hnne, hnw⟩ := wfWords_fields nws hn
  obtain ⟨hone, how⟩ := wfWords_fields ows ho
  have hOne : joinW ows ≠ [] :=
    joinW_ne_nil ows hone (fun w hw => (goodWord_fields w (how w hw)).1)
  have hline : cardLineOf nws ows =
      ((joinW nws ++ [' ']) ++ '(' :: joinW ows) ++ [')'] := by
    simp [cardLineOf]
  have hpre : ∀ c ∈ joinW nws ++ [' '], c ≠ '(' := by
    intro c hc
    rcases List.mem_append.mp hc with hc | hc
    · exact joinW_no_open nws hn c hc
    · simp only [List.mem_singleton] at hc
      subst hc
      decide
  have hnocl : ')' ∉ joinW ows := fun hm => joinW_no_close ows ho ')' hm rfl
  simp only [patternParenL]
  rw [hline]
  rw [dropTrailWs_eq_self _ ')' (by rw [List.getLast?_concat]) (by decide)]
  rw [List.getLast?_concat, List.dropLast_concat]
  rw [if_pos rfl]
  rw [parenSplitAux_skip (joinW nws ++ [' ']) [] ('(' :: joinW ows) hpre]
  rw [show ((joinW nws ++ [' ']).reverse ++ ([] : List Char)) =
    ' ' :: (joinW nws).reverse from by simp]
  have hc2 : (joinW ows).isEmpty = false := by simpa using hOne
  have hc3 : (joinW ows).contains ')' = false := by simpa using hnocl
  rw [show parenSplitAux (' ' :: (joinW nws).reverse) ('(' :: joinW ows) =
      some (joinW nws ++ [' '], joinW ows) from ?_]
  · simp only [pyStripL_joinW_space nws hn, pyStripL_joinW ows ho]
  · rw [parenSplitAux]
    split_ifs with hcnd
    · simp
    · exfalso
      apply hcnd
      simp [hc2, hc3]
      exact hnocl

theorem addParens_ne_nil (ws : List (List Char)) : addParens ws ≠ [] := by
  cases ws with
  | nil => simp [addParens]
  | cons w ws =>
    cases ws with
    | nil => simp [addParens]
    | cons w2 ws2 => simp [addParens]

theorem addParens_words (ows : List (List Char)) (h : ∀ w ∈ ows, goodWord w = true) :
    ∀ w ∈ addParens ows, w ≠ [] ∧ ∀ c ∈ w, pyIsSpace c = false := by
  cases ows with
  | nil =>
    intro w hw
    simp only [addParens, List.mem_singleton] at hw
    subst hw
    exact ⟨by simp, by decide⟩
  | cons w0 ows0 =>
    have hall := goodWord_plain w0 (h w0 (by simp))
    cases ows0 with
    | nil =>
      intro w hw
      simp only [addParens, List.mem_singleton] at hw
      subst hw
      refine ⟨by simp, ?_⟩
      intro c hc
      rcases List.mem_cons.mp hc with rfl | hc
      · decide
      · rcases List.mem_append.mp hc with hc | hc
        · exact hall.2 c hc
        · simp only [List.mem_singleton] at hc
          subst hc
          decide
    | cons w2 ws2 =>
      intro w hw
      simp only [addParens] at hw
      rcases List.mem_cons.mp hw with rfl | hw
      · refine ⟨by simp, ?_⟩
        intro c hc
        rcases List.mem_cons.mp hc with rfl | hc
        · decide
        · exact hall.2 c hc
      · exact addRparen_words (w2 :: ws2) (fun w' hw' => h w' (by simp [hw'])) w hw

theorem cardLineOf_joinW (nws ows : List (List Char)) (hn : wfWords nws = true)
    (ho : wfWords ows = true) :
    cardLineOf nws ows = joinW (nws ++ addParens ows) := by
  obtain ⟨hnne, _⟩ := wfWords_fields nws hn
  obtain ⟨hone, _⟩ := wfWords_fields ows ho
  rw [joinW_append nws (addParens ows) hnne (addParens_ne_nil ows)]
  rw [joinW_addParens ows hone]
  simp [cardLineOf]

theorem cardLine_words (nws ows : List (List Char)) (hn : wfWords nws = true)
    (ho : wfWords ows = true) :
    ∀ w ∈ nws ++ addParens ows, w ≠ [] ∧ ∀ c ∈ w, pyIsSpace c = false := by
  intro w hw
  rcases List.mem_append.mp hw with hw | hw
  · exact goodWord_plain w ((wfWords_fields nws hn).2 w hw)
  · exact addParens_words ows (wfWords_fields ows ho).2 w hw

theorem collapse_cardLine (nws ows : List (List Char)) (hn : wfWords nws = true)
    (ho : wfWords ows = true) :
    collapseWsL (cardLineOf nws ows) = cardLineOf nws ows := by
  rw [cardLineOf_joinW nws ows hn ho]
  exact collapseWsL_joinW _ (cardLine_words nws ows hn ho)

theorem cardLine_getLast (nws ows : List (List Char)) :
    (cardLineOf nws ows).getLast? = some ')' := by
  rw [show cardLineOf nws ows =
    ((joinW nws ++ [' ']) ++ '(' :: joinW ows) ++ [')'] from by simp [cardLineOf]]
  exact List.getLast?_concat _

theorem cardLine_cons (nws ows : List (List Char)) (a : Char) (t : List Char)
    (h : joinW nws = a :: t) :
    cardLineOf nws ows = a :: (t ++ ([' ', '('] ++ (joinW ows ++ [')']))) := by
  rw [cardLineOf, h]
  simp

theorem strip_cardLine (nws ows : List (List Char)) (hn : wfWords nws = true)
    (ho : wfWords ows = true) :
    pyStripL (cardLineOf nws ows) = cardLineOf nws ows := by
  obtain ⟨a, t, hNat, hag⟩ := joinW_head_good nws hn
  refine pyStripL_eq_self _ a ')' ?_ (goodWordChar_fields a hag).1
    (cardLine_getLast nws ows) (by decide)
  rw [cardLine_cons nws ows a t hNat]
  rfl

theorem stripLeadingEnum_cons (a : Char) (t : List Char) (h : a.isDigit = false) :
    stripLeadingEnumL (a :: t) = a :: t := by
  simp [stripLeadingEnumL, h]

theorem enum_cardLine (nws ows : List (List Char)) (hn : wfWords nws = true)
    (hd : (headCh nws).isDigit = false) :
    stripLeadingEnumL (cardLineOf nws ows) = cardLineOf nws ows := by
  obtain ⟨a, t, hNat, _⟩ := joinW_head_good nws hn
  have ha : a = headCh nws := by
    obtain ⟨hne, hw⟩ := wfWords_fields nws hn
    obtain ⟨t', ht'⟩ := joinW_head nws hne (fun w hw' => (goodWord_fields w (hw w hw')).1)
    have h12 : a :: t = headCh nws :: t' := by rw [← hNat, ht']
    simp only [List.cons.injEq] at h12
    exact h12.1
  rw [cardLine_cons nws ows a t hNat]
  exact stripLeadingEnum_cons a _ (ha ▸ hd)

theorem mem_paren_cardLine (nws ows : List (List Char)) :
    '(' ∈ cardLineOf nws ows := by
  simp [cardLineOf]

theorem cardLine_not_dots (line : List Char) (h : '(' ∈ line) :
    ¬(line = "...".toList ∨ line = "…".toList) := by
  rintro (rfl | rfl)
  · exact absurd h (by decide)
  · exact absurd h (by decide)

theorem not_placeholder_of_paren (l : List Char) (h : '(' ∈ l) :
    placeholdersL.contains (ruLowerL l) = false := by
  have hm : '(' ∈ ruLowerL l := List.mem_map.mpr ⟨'(', h, by decide⟩
  have hnone : ∀ p ∈ placeholdersL, '(' ∉ p := by decide
  have hnotin : ruLowerL l ∉ placeholdersL := fun hmem => hnone _ hmem hm
  simpa using hnotin

theorem wellFormedName_fields (nws : List (List Char))
    (h : wellFormedName nws = true) :
    wfWords nws = true ∧ (headCh nws).isDigit = false ∧
      placeholdersL.contains (ruLowerL (joinW nws)) = false := by
  simp only [wellFormedName, Bool.and_eq_true, Bool.not_eq_true'] at h
  exact ⟨h.1.1, h.1.2, h.2⟩

/-- A well-formed `name (orientation)` line parses to exactly one card when
the orientation keyword is recognized, and fails the whole parse when it
is not. -/
theorem processCardLine_wf (nws ows : List (List Char))
    (hn : wellFormedName nws = true) (ho : wellFormedOrient ows = true) :
    processCardLine (cardLineOf nws ows) =
      (if recognizedOrient (joinW ows) = true then
        LineStep.card { name := (joinW nws).asString,
                        orientation := orientResult (joinW ows) }
      else LineStep.fail) := by
  obtain ⟨hwf, hdig, hplace⟩ := wellFormedName_fields nws hn
  have howf : wfWords ows = true := ho
  have hparen := mem_paren_cardLine nws ows
  have hNne : joinW nws ≠ [] :=
    joinW_ne_nil nws (wfWords_fields nws hwf).1
      (fun w hw => (goodWord_fields w ((wfWords_fields nws hwf).2 w hw)).1)
  have hOne : joinW ows ≠ [] :=
    joinW_ne_nil ows (wfWords_fields ows howf).1
      (fun w hw => (goodWord_fields w ((wfWords_fields ows howf).2 w hw)).1)
  obtain ⟨a, t, hNat, hag⟩ := joinW_head_good nws hwf
  simp only [processCardLine]
  rw [if_neg (cardLine_not_dots _ hparen)]
  rw [collapse_cardLine nws ows hwf howf]
  rw [strip_cardLine nws ows hwf howf]
  rw [enum_cardLine nws ows hwf hdig]
  rw [strip_cardLine nws ows hwf howf]
  rw [if_neg (show ¬(cardLineOf nws ows = []) from by
    rw [cardLine_cons nws ows a t hNat]; simp)]
  rw [if_neg (show ¬(placeholdersL.contains (ruLowerL (cardLineOf nws ows)) = true)
    from by rw [not_placeholder_of_paren _ hparen]; simp)]
  rw [show lineNameOrient (cardLineOf nws ows) = some (joinW nws, joinW ows) from by
    simp only [lineNameOrient, patternParenL_card nws ows hwf howf]]
  dsimp only
  rw [if_neg (show ¬(joinW nws = [] ∨ joinW ows = []) from by simp [hNne, hOne])]
  rw [if_neg (show ¬(placeholdersL.contains (ruLowerL (joinW nws)) = true)
    from by rw [hplace]; simp)]
  by_cases hup : isSubL "прям".toList (ruLowerL (joinW ows)) = true
  · rw [if_pos hup]
    rw [if_pos (show recognizedOrient (joinW ows) = true from by
      simp only [recognizedOrient, recognizedUp, hup, Bool.true_or])]
    simp only [orientResult, recognizedUp, hup]
    rfl
  · have hup' : isSubL "прям".toList (ruLowerL (joinW ows)) = false := by
      simpa using hup
    rw [if_neg hup]
    by_cases hrev : (isSubL "перев".toList (ruLowerL (joinW ows)) ||
        isSubL "обрат".toList (ruLowerL (joinW ows)) ||
        isSubL "revers".toList (ruLowerL (joinW ows))) = true
    · rw [if_pos hrev]
      have hro : recognizedOrient (joinW ows) = true := by
        simp only [recognizedOrient, recognizedUp, recognizedRev, hup', hrev,
          Bool.false_or]
      rw [if_pos hro]
      simp only [orientResult, recognizedUp, hup']
      rfl
    · rw [if_neg hrev]
      have hrev' : (isSubL "перев".toList (ruLowerL (joinW ows)) ||
          isSubL "обрат".toList (ruLowerL (joinW ows)) ||
          isSubL "revers".toList (ruLowerL (joinW ows))) = false := by
        simpa using hrev
      have hro : recognizedOrient (joinW ows) = false := by
        simp only [recognizedOrient, recognizedUp, recognizedRev, hup', hrev',
          Bool.false_or]
      rw [if_neg (by simp [hro])]

theorem wfEntry_fields (e : CardEntry) (h : wfEntry e = true) :
    wellFormedName e.1 = true ∧ wellFormedOrient e.2 = true := by
  simp only [wfEntry, Bool.and_eq_true] at h
  exact h

theorem cardLine_no_nl (nws ows : List (List Char)) (hn : wfWords nws = true)
    (ho : wfWords ows = true) :
    ∀ c ∈ cardLineOf nws ows, ¬(c = '\n' ∨ c = '\r') := by
  rw [cardLineOf_joinW nws ows hn ho]
  intro c hc hor
  rcases mem_joinW _ c hc with rfl | ⟨w, hw, hcw⟩
  · rcases hor with h' | h' <;> simp at h'
  · have hp := (cardLine_words nws ows hn ho w hw).2 c hcw
    rcases hor with rfl | rfl <;> simp [pyIsSpace] at hp

theorem cardLine_ne_nil (nws ows : List (List Char)) :
    cardLineOf nws ows ≠ [] := by
  intro h
  have hm := mem_paren_cardLine nws ows
  rw [h] at hm
  simp at hm

theorem splitOnNL_noNL (l : List Char)
    (h : ∀ c ∈ l, ¬(c = '\n' ∨ c = '\r')) : splitOnNL l = [l] := by
  induction l with
  | nil => rfl
  | cons c t ih =>
    rw [splitOnNL, if_neg (h c (by simp)),
      ih (fun c' hc' => h c' (by simp [hc']))]

theorem splitOnNL_append (l t : List Char)
    (h : ∀ c ∈ l, ¬(c = '\n' ∨ c = '\r')) :
    splitOnNL (l ++ '\n' :: t) = l :: splitOnNL t := by
  induction l with
  | nil =>
    show splitOnNL ('\n' :: t) = [] :: splitOnNL t
    rw [splitOnNL, if_pos (Or.inl rfl)]
  | cons c l ih =>
    show splitOnNL (c :: (l ++ '\n' :: t)) = _
    rw [splitOnNL, if_neg (h c (by simp)),
      ih (fun c' hc' => h c' (by simp [hc']))]

theorem splitOnNL_joinLines (ls : List (List Char)) :
    ls ≠ [] → (∀ l ∈ ls, ∀ c ∈ l, ¬(c = '\n' ∨ c = '\r')) →
    splitOnNL (joinLines ls) = ls := by
  induction ls with
  | nil => intro hne _; exact absurd rfl hne
  | cons l ls ih =>
    intro _ h
    cases ls with
    | nil => exact splitOnNL_noNL l (h l (by simp))
    | cons l2 ls2 =>
      show splitOnNL (l ++ '\n' :: joinLines (l2 :: ls2)) = l :: l2 :: ls2
      rw [splitOnNL_append l _ (h l (by simp))]
      rw [ih (by simp) (fun l' hl' c hc => h l' (by simp [hl']) c hc)]

theorem map_eq_self (l : List (List Char)) (f : List Char → List Char)
    (h : ∀ a ∈ l, f a = a) : l.map f = l := by
  induction l with
  | nil => rfl
  | cons a l ih =>
    rw [List.map_cons, h a (by simp), ih (fun a' ha' => h a' (by simp [ha']))]

theorem filter_ne_nil (l : List (List Char)) (h : ∀ a ∈ l, a ≠ []) :
    l.filter (fun x => !x.isEmpty) = l := by
  induction l with
  | nil => rfl
  | cons a l ih =>
    have ha : (!a.isEmpty) = true := by
      cases a with
      | nil => exact absurd rfl (h [] (by simp))
      | cons x t => rfl
    rw [List.filter_cons, if_pos ha, ih (fun a' ha' => h a' (by simp [ha']))]

theorem lines_of_entries (entries : List CardEntry) (hne : entries ≠ [])
    (h : ∀ e ∈ entries, wfEntry e = true) :
    ((splitOnNL (joinLines (entries.map (fun e => cardLineOf e.1 e.2)))).map
        pyStripL).filter (fun l => !l.isEmpty) =
      entries.map (fun e => cardLineOf e.1 e.2) := by
  have hmne : entries.map (fun e => cardLineOf e.1 e.2) ≠ [] := by
    simpa using hne
  have hnonl : ∀ l ∈ entries.map (fun e => cardLineOf e.1 e.2),
      ∀ c ∈ l, ¬(c = '\n' ∨ c = '\r') := by
    intro l hl c hc
    obtain ⟨e, he, rfl⟩ := List.mem_map.mp hl
    obtain ⟨hN, hO⟩ := wfEntry_fields e (h e he)
    exact cardLine_no_nl e.1 e.2 (wellFormedName_fields e.1 hN).1 hO c hc
  rw [splitOnNL_joinLines _ hmne hnonl]
  rw [map_eq_self _ pyStripL (fun l hl => by
    obtain ⟨e, he, rfl⟩ := List.mem_map.mp hl
    obtain ⟨hN, hO⟩ := wfEntry_fields e (h e he)
    exact strip_cardLine e.1 e.2 (wellFormedName_fields e.1 hN).1 hO)]
  exact filter_ne_nil _ (fun l hl => by
    obtain ⟨e, he, rfl⟩ := List.mem_map.mp hl
    exact cardLine_ne_nil e.1 e.2)

theorem parseCardsGo_cards (entries : List CardEntry)
    (h : ∀ e ∈ entries, processCardLine (cardLineOf e.1 e.2) =
      LineStep.card (cardOfEntry e)) :
    parseCardsGo (entries.map (fun e => cardLineOf e.1 e.2)) =
      some (entries.map cardOfEntry) := by
  induction entries with
  | nil => rfl
  | cons e es ih =>
    rw [List.map_cons, parseCardsGo, h e (by simp),
      ih (fun e' he' => h e' (by simp [he']))]
    rfl

theorem parseCardsGo_fail (ls : List (List Char)) (l : List Char)
    (hl : l ∈ ls) (hf : processCardLine l = LineStep.fail) :
    parseCardsGo ls = none := by
  induction ls with
  | nil => simp at hl
  | cons a as ih =>
    rcases List.mem_cons.mp hl with rfl | hl'
    · rw [parseCardsGo, hf]
    · rw [parseCardsGo]
      cases hpa : processCardLine a with
      | skip => exact ih hl'
      | card c =>
        rw [ih hl']
        rfl
      | fail => rfl

theorem processCardLine_entry (e : CardEntry) (hwf : wfEntry e = true)
    (hrec : recognizedOrient (joinW e.2) = true) :
    processCardLine (cardLineOf e.1 e.2) = LineStep.card (cardOfEntry e) := by
  obtain ⟨hN, hO⟩ := wfEntry_fields e hwf
  rw [processCardLine_wf e.1 e.2 hN hO, if_pos hrec]
  rfl

theorem processCardLine_entry_fail (e : CardEntry) (hwf : wfEntry e = true)
    (hrec : recognizedOrient (joinW e.2) = false) :
    processCardLine (cardLineOf e.1 e.2) = LineStep.fail := by
  obtain ⟨hN, hO⟩ := wfEntry_fields e hwf
  rw [processCardLine_wf e.1 e.2 hN hO, if_neg (by simp [hrec])]

theorem parse_tarot_cards_entries (entries : List CardEntry) (hne : entries ≠ [])
    (h : ∀ e ∈ entries, wfEntry e = true)
    (hrec : ∀ e ∈ entries, recognizedOrient (joinW e.2) = true) :
    parse_tarot_cards (textOfEntries entries) =
      some (entries.map cardOfEntry) := by
  have htl : (textOfEntries entries).toList =
      joinLines (entries.map (fun e => cardLineOf e.1 e.2)) := rfl
  simp only [parse_tarot_cards, htl]
  rw [lines_of_entries entries hne h]
  have hm : (entries.map (fun e => cardLineOf e.1 e.2)).isEmpty = false := by
    cases entries with
    | nil => exact absurd rfl hne
    | cons e es => rfl
  rw [if_neg (by rw [hm]; simp)]
  rw [parseCardsGo_cards entries
    (fun e he => processCardLine_entry e (h e he) (hrec e he))]
  have hm2 : (entries.map cardOfEntry).isEmpty = false := by
    cases entries with
    | nil => exact absurd rfl hne
    | cons e es => rfl
  dsimp only
  rw [if_neg (by rw [hm2]; simp)]

theorem parse_tarot_cards_entries_fail (entries : List CardEntry)
    (hne : entries ≠ []) (h : ∀ e ∈ entries, wfEntry e = true)
    (e₀ : CardEntry) (he₀ : e₀ ∈ entries)
    (hbad : recognizedOrient (joinW e₀.2) = false) :
    parse_tarot_cards (textOfEntries entries) = none := by
  have htl : (textOfEntries entries).toList =
      joinLines (entries.map (fun e => cardLineOf e.1 e.2)) := rfl
  simp only [parse_tarot_cards, htl]
  rw [lines_of_entries entries hne h]
  have hm : (entries.map (fun e => cardLineOf e.1 e.2)).isEmpty = false := by
    cases entries with
    | nil => exact absurd rfl hne
    | cons e es => rfl
  rw [if_neg (by rw [hm]; simp)]
  rw [parseCardsGo_fail _ (cardLineOf e₀.1 e₀.2)
    (List.mem_map.mpr ⟨e₀, he₀, rfl⟩)
    (processCardLine_entry_fail e₀ (h e₀ he₀) hbad)]

theorem mem_joinLines (ls : List (List Char)) (l : List Char) (c : Char)
    (hc : c ∈ l) : l ∈ ls → c ∈ joinLines ls := by
  induction ls with
  | nil => intro hl; simp at hl
  | cons a as ih =>
    intro hl
    cases as with
    | nil =>
      have h1 : l = a := by simpa using hl
      subst h1
      exact hc
    | cons a2 as2 =>
      show c ∈ a ++ '\n' :: joinLines (a2 :: as2)
      rcases List.mem_cons.mp hl with rfl | hl'
      · exact List.mem_append.mpr (Or.inl hc)
      · exact List.mem_append.mpr (Or.inr (List.mem_cons.mpr (Or.inr (ih hl'))))

theorem textOfEntries_ne_menu (entries : List CardEntry) (hne : entries ≠ []) :
    textOfEntries entries ≠ "В меню" ∧ textOfEntries entries ≠ "Назад в меню" := by
  have hmem : '(' ∈ (textOfEntries entries).toList := by
    show '(' ∈ joinLines (entries.map (fun e => cardLineOf e.1 e.2))
    cases entries with
    | nil => exact absurd rfl hne
    | cons e es =>
      exact mem_joinLines _ (cardLineOf e.1 e.2) '('
        (mem_paren_cardLine e.1 e.2) (by simp)
  constructor <;> intro heq <;> rw [heq] at hmem <;> exact absurd hmem (by decide)

set_option maxHeartbeats 1000000 in
/-- C2: with a spread text whose extracted card count is 5 and a session
carrying that requirement, a card list of exactly 5 well-formed
`name (orientation)` lines with recognized orientation keywords parses to
exactly 5 entries and is accepted (the handler reaches the interpretation
stage with those 5 cards); a list of 4 or 6 such lines is rejected with
the count re-prompt and creates no tarot-mode log row; and any single
line whose orientation keyword is not a recognized upright/reversed stem
makes the whole parse return `None` — never a partial list — so the
handler re-prompts and creates no log row. -/
theorem tarot_cards_parse_and_count_gate
    (env : Env) (db : Db) (u : User) (chat : Int) (spread : String)
    (s : TgSession) (entries : List CardEntry)
    (hsp : extract_tarot_spread_cards_count spread = 5)
    (hreq : s.data.tarot_mode_cards_required =
      some (extract_tarot_spread_cards_count spread))
    (hwf : ∀ e ∈ entries, wfEntry e = true) (hne : entries ≠ []) :
    ((∀ e ∈ entries, recognizedOrient (joinW e.2) = true) →
      (entries.length = 5 →
        parse_tarot_cards (textOfEntries entries) =
          some (entries.map cardOfEntry) ∧
        (entries.map cardOfEntry).length = 5 ∧
        handle_tarot_mode_cards env s u chat (textOfEntries entries) db =
          tarot_mode_cards_proceed env s u chat db (entries.map cardOfEntry)) ∧
      ((entries.length = 4 ∨ entries.length = 6) →
        handle_tarot_mode_cards env s u chat (textOfEntries entries) db =
          ({ s with state := "tarot_mode_cards" }, u,
            send_message env db chat (tarotCountMismatchMsg 5)) ∧
        (send_message env db chat (tarotCountMismatchMsg 5)).tarot_mode_logs =
          db.tarot_mode_logs)) ∧
    (∀ e₀ ∈ entries, recognizedOrient (joinW e₀.2) = false →
      parse_tarot_cards (textOfEntries entries) = none ∧
      handle_tarot_mode_cards env s u chat (textOfEntries entries) db =
        ({ s with state := "tarot_mode_cards" }, u,
          send_message env db chat tarotFormatRepromptMsg) ∧
      (send_message env db chat tarotFormatRepromptMsg).tarot_mode_logs =
        db.tarot_mode_logs) := by
  obtain ⟨hm1, hm2⟩ := textOfEntries_ne_menu entries hne
  have hmenu : ¬(textOfEntries entries = "В меню" ∨
      textOfEntries entries = "Назад в меню") := by
    simp [hm1, hm2]
  constructor
  · intro hrec
    have hparse := parse_tarot_cards_entries entries hne hwf hrec
    constructor
    · intro h5
      refine ⟨hparse, by simp [h5], ?_⟩
      simp only [handle_tarot_mode_cards]
      rw [if_neg hmenu, hparse]
      dsimp only
      rw [hreq, hsp]
      dsimp only
      rw [if_neg (show ¬(entries.map cardOfEntry).length ≠ 5 from
        not_ne_iff.mpr (by simp [h5]))]
    · intro h46
      have hlen : (entries.map cardOfEntry).length ≠ 5 := by
        rcases h46 with h | h <;> simp [h]
      constructor
      · simp only [handle_tarot_mode_cards]
        rw [if_neg hmenu, hparse]
        dsimp only
        rw [hreq, hsp]
        dsimp only
        rw [if_pos hlen]
      · rfl
  · intro e₀ he₀ hbad
    have hparse := parse_tarot_cards_entries_fail entries hne hwf e₀ he₀ hbad
    refine ⟨hparse, ?_, rfl⟩
    simp only [handle_tarot_mode_cards]
    rw [if_neg hmenu, hparse]

/-- Concrete check of the C2 gate on a five-card horseshoe fixture: the
hypotheses evaluate, the five-entry list is accepted, the four-entry list
is count-rejected, and the list with the unrecognized orientation fails
the parse and is re-prompted. -/
theorem tarot_cards_parse_and_count_gate_witness :
    (extract_tarot_spread_cards_count spreadFix = 5 ∧
     sessTarot5.data.tarot_mode_cards_required =
       some (extract_tarot_spread_cards_count spreadFix) ∧
     (∀ e ∈ entriesFix5, wfEntry e = true) ∧ entriesFix5 ≠ [] ∧
     (∀ e ∈ entriesFix5, recognizedOrient (joinW e.2) = true) ∧
     entriesFix5.length = 5) ∧
    parse_tarot_cards (textOfEntries entriesFix5) =
      some (entriesFix5.map cardOfEntry) ∧
    handle_tarot_mode_cards envTrivial sessTarot5 userPaid 7
        (textOfEntries entriesFix5) dbEmpty =
      tarot_mode_cards_proceed envTrivial sessTarot5 userPaid 7 dbEmpty
        (entriesFix5.map cardOfEntry) ∧
    handle_tarot_mode_cards envTrivial sessTarot5 userPaid 7
        (textOfEntries entriesFix4) dbEmpty =
      ({ sessTarot5 with state := "tarot_mode_cards" }, userPaid,
        send_message envTrivial dbEmpty 7 (tarotCountMismatchMsg 5)) ∧
    parse_tarot_cards (textOfEntries entriesBad) = none := by
  have h5 := (tarot_cards_parse_and_count_gate envTrivial dbEmpty userPaid 7
    spreadFix sessTarot5 entriesFix5 (by decide) (by decide) (by decide)
    (by decide)).1 (by decide)
  have h4 := (tarot_cards_parse_and_count_gate envTrivial dbEmpty userPaid 7
    spreadFix sessTarot5 entriesFix4 (by decide) (by decide) (by decide)
    (by decide)).1 (by decide)
  have hb := (tarot_cards_parse_and_count_gate envTrivial dbEmpty userPaid 7
    spreadFix sessTarot5 entriesBad (by decide) (by decide) (by decide)
    (by decide)).2 (["Башня".toList], ["вверх".toList]) (by decide) (by decide)
  exact ⟨⟨by decide, by decide, by decide, by decide, by decide, by decide⟩,
    (h5.1 (by decide)).1, (h5.1 (by decide)).2.2,
    (h4.2 (Or.inl (by decide))).1, hb.1⟩

end ElzaBot

